import Mathlib

/-!
Shallow embedding of the packet-tracer probe/filtering engine, used to check
the natural-language specification against the code.

The development covers:
* the metadata filter compiler (`src/retis/src/core/filters/meta/filter.rs`):
  `MetaOp`, `MetaLoad`, `MetaTarget`, `FilterMeta::parse_filter`,
  `MetaOp::emit_load`, `MetaOp::emit_target`, `FilterMeta::from_string`;
* the packet filter compiler front door
  (`src/retis/src/core/filters/packets/filter.rs`): `FilterPacket::from_string_opt`;
* the kernel event factory (`src/src/core/probe/kernel/kernel.rs`):
  `KernelEventFactory::from_raw` and `unmarshal_stackid`;
* the OVS event JSON round trip (`src/retis-events/src/ovs.rs`).

Rust machine integers are modelled as `Nat`/`Int` (with explicit range checks
where the source performs fallible conversions), fallible code returns
`Except String` mirroring `anyhow::Result`, and the kernel BTF type graph is
modelled as a first-order tree type `Ty` (the source walks a finite acyclic
chain of BTF records through `btf-rs`).
-/

namespace PacketTracer

/-! ## Small numeric/string helpers shared by the embeddings -/

/-- Little-endian read of `k` bytes (as in `u64::from_ne_bytes` on x86). -/
def leU64 : List Nat → Nat
  | [] => 0
  | b :: rest => b % 256 + 256 * leU64 rest

/-- Little-endian bytes of `n`, `k` bytes wide (as in `u64::to_ne_bytes` on x86). -/
def natLEBytes : Nat → Nat → List Nat
  | _, 0 => []
  | n, k + 1 => n % 256 :: natLEBytes (n / 256) k

/-- Interpret a 64-bit unsigned value as `i64` (two's complement). -/
def asI64 (u : Nat) : Int :=
  if u % 2 ^ 64 < 2 ^ 63 then (u % 2 ^ 64 : Int) else (u % 2 ^ 64 : Int) - 2 ^ 64

/-- Interpret a 32-bit unsigned value as `i32` (two's complement); models the
Rust cast `as i32` applied after truncation to the low 32 bits. -/
def asI32 (u : Nat) : Int :=
  if u % 2 ^ 32 < 2 ^ 31 then (u % 2 ^ 32 : Int) else (u % 2 ^ 32 : Int) - 2 ^ 32

/-- Decimal digit value of a character, if it is an ASCII digit. -/
def decDigit? (c : Char) : Option Nat :=
  if '0' ≤ c ∧ c ≤ '9' then some (c.toNat - 48) else none

/-- Hex digit value of a character, if it is an ASCII hex digit. -/
def hexDigit? (c : Char) : Option Nat :=
  if '0' ≤ c ∧ c ≤ '9' then some (c.toNat - 48)
  else if 'a' ≤ c ∧ c ≤ 'f' then some (c.toNat - 87)
  else if 'A' ≤ c ∧ c ≤ 'F' then some (c.toNat - 55)
  else none

/-- Fold a digit list in base `base`, failing on a non-digit. -/
def digitsVal? (digit? : Char → Option Nat) (base : Nat) : List Char → Option Nat → Option Nat
  | [], acc => acc
  | c :: cs, acc =>
    match acc, digit? c with
    | some a, some d => digitsVal? digit? base cs (some (a * base + d))
    | _, _ => none

/-- Model of Rust `str::parse::<u64>`: optional leading `+`, one or more
decimal digits, value below `2^64` (overflow errors). -/
def parseU64? (s : List Char) : Option Nat :=
  let s := match s with
    | '+' :: rest => rest
    | other => other
  match s with
  | [] => none
  | _ =>
    match digitsVal? decDigit? 10 s (some 0) with
    | some v => if v < 2 ^ 64 then some v else none
    | none => none

/-- Model of Rust `str::parse::<i64>`: optional sign, decimal digits, value in
the `i64` range. -/
def parseI64? (s : List Char) : Option Int :=
  let (neg, s) := match s with
    | '-' :: rest => (true, rest)
    | '+' :: rest => (false, rest)
    | other => (false, other)
  match s with
  | [] => none
  | _ =>
    match digitsVal? decDigit? 10 s (some 0) with
    | some v =>
      if neg then
        if v ≤ 2 ^ 63 then some (-(v : Int)) else none
      else
        if v < 2 ^ 63 then some (v : Int) else none
    | none => none

/-- Model of Rust `u64::from_str_radix(s, 16)`: optional leading `+`, one or
more hex digits, value below `2^64`. -/
def parseHexU64? (s : List Char) : Option Nat :=
  let s := match s with
    | '+' :: rest => rest
    | other => other
  match s with
  | [] => none
  | _ =>
    match digitsVal? hexDigit? 16 s (some 0) with
    | some v => if v < 2 ^ 64 then some v else none
    | none => none

/-- Split a character list on a separator character; like Rust `str::split(c)`,
empty fragments are kept and the empty input yields one empty fragment. -/
def splitOnChar (c : Char) : List Char → List (List Char)
  | [] => [[]]
  | x :: xs =>
    if x = c then [] :: splitOnChar c xs
    else
      match splitOnChar c xs with
      | h :: t => (x :: h) :: t
      | [] => [[x]]

/-- Model of Rust `str::trim_start_matches("0x")`: repeatedly strip a leading
`0x`. -/
def strip0x : List Char → List Char
  | '0' :: 'x' :: rest => strip0x rest
  | other => other

/-- Lowercase hex digits of `n` (fuel-driven so that it stays structural). -/
def hexDigitsAux : Nat → Nat → List Char
  | 0, _ => []
  | _ + 1, 0 => []
  | fuel + 1, n =>
    hexDigitsAux fuel (n / 16) ++
      [Char.ofNat (if n % 16 < 10 then 48 + n % 16 else 87 + n % 16)]

/-- Model of Rust `format!("{:#x}", n)` for unsigned `n`. -/
def hexStr (n : Nat) : String :=
  if n = 0 then "0x0" else "0x" ++ String.mk (hexDigitsAux n n)

/-- UTF-8 encoding of one character (what Rust `str::as_bytes` exposes). -/
def charUtf8 (c : Char) : List Nat :=
  let n := c.toNat
  if n < 0x80 then [n]
  else if n < 0x800 then [0xc0 + n / 64, 0x80 + n % 64]
  else if n < 0x10000 then [0xe0 + n / 4096, 0x80 + n / 64 % 64, 0x80 + n % 64]
  else [0xf0 + n / 262144, 0x80 + n / 4096 % 64, 0x80 + n / 64 % 64, 0x80 + n % 64]

/-- UTF-8 bytes of a string (Rust `str::as_bytes`). -/
def strBytes (s : String) : List Nat :=
  (s.toList.map charUtf8).flatten

/-! ## BTF type graph model

`btf-rs` exposes kernel BTF records through the enum `Type`; the compiler in
`meta/filter.rs` only ever follows the chain of referenced types (through
`Btf::type_iter` / `resolve_chained_type`) and struct/union member lists, so a
finite tree captures every reachable behaviour.  Struct/union member lists are
inlined as the `mnil`/`mcons*` constructors to keep all recursions structural
(`mconsU` stands for a member whose `resolve_chained_type` fails, which
`walk_btf_node` observes as `None`). -/

inductive Ty : Type where
  /-- `Type::Void` (the only variant whose `as_btf_type()` is `None`). -/
  | void : Ty
  /-- `Type::Int` with byte size and signedness. -/
  | int (size : Nat) (signed : Bool) : Ty
  /-- `Type::Enum` with signedness. -/
  | enum (signed : Bool) : Ty
  /-- `Type::Enum64` with signedness. -/
  | enum64 (signed : Bool) : Ty
  /-- `Type::Ptr`, chaining to the pointee. -/
  | ptr (t : Ty) : Ty
  /-- `Type::Array` with element count, chaining to the element type. -/
  | arr (len : Nat) (elem : Ty) : Ty
  /-- `Type::Typedef`, chaining to the aliased type. -/
  | typedef (t : Ty) : Ty
  /-- `Type::Volatile`. -/
  | volatile (t : Ty) : Ty
  /-- `Type::Const`. -/
  | cnst (t : Ty) : Ty
  /-- `Type::Restrict`. -/
  | restrict (t : Ty) : Ty
  /-- `Type::DeclTag`. -/
  | declTag (t : Ty) : Ty
  /-- `Type::TypeTag`. -/
  | typeTag (t : Ty) : Ty
  /-- `Type::Struct` (`isUnion = false`) or `Type::Union` (`isUnion = true`);
  `ms` is an `mnil`/`mcons*` member list. -/
  | comp (isUnion : Bool) (name : String) (ms : Ty) : Ty
  /-- End of a member list. -/
  | mnil : Ty
  /-- A member with name, bit offset, optional bitfield size and resolvable
  chained type (`resolve_chained_type` returns `Ok`). -/
  | mconsR (name : String) (bitOffset : Nat) (bfs : Option Nat) (ty : Ty)
      (rest : Ty) : Ty
  /-- A member whose `resolve_chained_type` fails. -/
  | mconsU (name : String) (bitOffset : Nat) (bfs : Option Nat) (rest : Ty) : Ty
  /-- Any other BTF kind (fwd, func, var, ...), carrying its display name. -/
  | other (name : String) : Ty
deriving DecidableEq, Repr

namespace Ty

/-- `Type::name()` as used in error messages. -/
def name : Ty → String
  | .void => "void"
  | .int _ _ => "int"
  | .enum _ => "enum"
  | .enum64 _ => "enum64"
  | .ptr _ => "ptr"
  | .arr _ _ => "array"
  | .typedef _ => "typedef"
  | .volatile _ => "volatile"
  | .cnst _ => "const"
  | .restrict _ => "restrict"
  | .declTag _ => "decl-tag"
  | .typeTag _ => "type-tag"
  | .comp true _ _ => "union"
  | .comp false _ _ => "struct"
  | .mnil => "member-list"
  | .mconsR _ _ _ _ _ => "member-list"
  | .mconsU _ _ _ _ => "member-list"
  | .other n => n

/-- Whether `Type::as_btf_type()` is `Some` (everything except `Void`; member
lists are artefacts of the encoding and never reach this query). -/
def hasBtfType : Ty → Bool
  | .void => false
  | _ => true

end Ty

/-! ## MetaOp model (`meta/filter.rs`) -/

/-- `META_OPS_MAX` in `meta/filter.rs` (size of the `filter_meta_map`). -/
def META_OPS_MAX : Nat := 32

/-- `META_TARGET_MAX` in `meta/filter.rs`. -/
def META_TARGET_MAX : Nat := 32

/-- `PTR_BIT = 1 << 6`. -/
def PTR_BIT : Nat := 64

/-- `SIGN_BIT = 1 << 7`. -/
def SIGN_BIT : Nat := 128

/-- Comparison operators (`MetaCmp`). -/
inductive MetaCmp : Type where
  | eq | gt | lt | ge | le | ne
deriving DecidableEq, Repr

/-- The `u8` discriminant of a `MetaCmp` (`MetaCmp as u8`). -/
def MetaCmp.toU8 : MetaCmp → Nat
  | .eq => 0
  | .gt => 1
  | .lt => 2
  | .ge => 3
  | .le => 4
  | .ne => 5

/-- `MetaCmp::from_str`. -/
def MetaCmp.fromStr (op : String) : Except String MetaCmp :=
  if op = "==" then .ok .eq
  else if op = ">" then .ok .gt
  else if op = "<" then .ok .lt
  else if op = ">=" then .ok .ge
  else if op = "<=" then .ok .le
  else if op = "!=" then .ok .ne
  else .error ("unknown comparison operator (" ++ op ++ ").")

/-- The load shape of a `MetaOp` (`MetaLoad`): all fields are Rust machine
integers, modelled as `Nat` (`r#type`, `nmemb`, `bf_size` are `u8`, `offt` is
`u16`, `mask` is `u64`). -/
structure MetaLoad where
  r_type : Nat := 0
  nmemb : Nat := 0
  offt : Nat := 0
  bf_size : Nat := 0
  mask : Nat := 0
deriving DecidableEq, Repr

namespace MetaLoad

/-- `MetaLoad::is_byte`. -/
def is_byte (l : MetaLoad) : Bool := l.r_type &&& 0x1f == 1

/-- `MetaLoad::is_short`. -/
def is_short (l : MetaLoad) : Bool := l.r_type &&& 0x1f == 2

/-- `MetaLoad::is_int`. -/
def is_int (l : MetaLoad) : Bool := l.r_type &&& 0x1f == 3

/-- `MetaLoad::is_long`. -/
def is_long (l : MetaLoad) : Bool := l.r_type &&& 0x1f == 4

/-- `MetaLoad::is_num`. -/
def is_num (l : MetaLoad) : Bool := l.is_byte || l.is_short || l.is_int || l.is_long

/-- `MetaLoad::is_ptr`. -/
def is_ptr (l : MetaLoad) : Bool := l.r_type &&& PTR_BIT > 0

/-- `MetaLoad::is_signed`. -/
def is_signed (l : MetaLoad) : Bool := l.r_type &&& SIGN_BIT > 0

/-- `MetaLoad::is_arr`. -/
def is_arr (l : MetaLoad) : Bool := l.nmemb > 0

end MetaLoad

/-- The target shape of a `MetaOp` (`MetaTarget`): `md` is the 32-byte literal
buffer, `sz` the number of active bytes, `cmp` the comparator byte. -/
structure MetaTarget where
  md : List Nat := List.replicate META_TARGET_MAX 0
  sz : Nat := 0
  cmp : Nat := 0
deriving DecidableEq, Repr

/-- A `MetaOp` union value.  The source stores both shapes in one 34-byte
union discriminated by position; the program only ever writes and reads each
entry through exactly one of the two views, so a sum faithfully captures the
per-entry content. -/
inductive MetaOp : Type where
  | load (l : MetaLoad)
  | target (t : MetaTarget)
deriving DecidableEq, Repr

/-- Whether a `MetaOp` entry is a load entry. -/
def MetaOp.isLoad : MetaOp → Bool
  | .load _ => true
  | .target _ => false

/-! ## `MetaOp::emit_load` -/

/-- `MetaOp::bail_on_arr`. -/
def bailOnArr (l : MetaLoad) (tn : String) : Except String Unit :=
  if l.is_arr then .error ("array of " ++ tn ++ " are not supported.") else .ok ()

/-- `MetaOp::bail_on_ptr`. -/
def bailOnPtr (l : MetaLoad) (tn : String) : Except String Unit :=
  if l.is_ptr then .error ("pointers to " ++ tn ++ " are not supported.") else .ok ()

/-- The size dispatch of the `Type::Int` arm of `emit_load` (`match i.size()`
setting the width bits, unknown sizes erroring). -/
def intSized (l : MetaLoad) (size : Nat) : Except String MetaLoad :=
  if size = 8 then .ok { l with r_type := l.r_type ||| 4 }
  else if size = 4 then .ok { l with r_type := l.r_type ||| 3 }
  else if size = 2 then .ok { l with r_type := l.r_type ||| 2 }
  else if size = 1 then .ok { l with r_type := l.r_type ||| 1 }
  else .error "unsupported type."

/-- One iteration of the `loop` body in `emit_load`: fold the current chain
element into the load word. -/
def emitNode (t : Ty) (l : MetaLoad) : Except String MetaLoad :=
  match t with
  | .ptr _ =>
    match bailOnPtr l t.name with
    | .error e => .error e
    | .ok _ => .ok { l with r_type := l.r_type ||| PTR_BIT }
  | .arr len _ =>
    match bailOnPtr l t.name with
    | .error e => .error e
    | .ok _ =>
      -- `u8::try_from(a.len())?`
      if len < 256 then .ok { l with nmemb := len }
      else .error "out of range integral type conversion attempted"
  | .enum signed =>
    match bailOnPtr l t.name with
    | .error e => .error e
    | .ok _ =>
      .ok { l with r_type := (l.r_type ||| 3) ||| (if signed then SIGN_BIT else 0) }
  | .enum64 signed =>
    match bailOnPtr l t.name with
    | .error e => .error e
    | .ok _ =>
      .ok { l with r_type := (l.r_type ||| 4) ||| (if signed then SIGN_BIT else 0) }
  | .int size signed =>
    match intSized (if signed then { l with r_type := l.r_type ||| SIGN_BIT } else l) size with
    | .error e => .error e
    | .ok l =>
      if !l.is_byte then
        match bailOnArr l t.name with
        | .error e => .error e
        | .ok _ =>
          match bailOnPtr l t.name with
          | .error e => .error e
          | .ok _ => .ok l
      else .ok l
  | .typedef _ | .volatile _ | .cnst _ | .restrict _ | .declTag _ | .typeTag _ => .ok l
  | _ => .error ("found unsupported type while emitting operation (" ++ t.name ++ ").")

/-- The `loop` of `emit_load`: process the current type, then follow the
chained type (`Btf::type_iter`) until the chain ends. -/
def emitLoop : Ty → MetaLoad → Except String MetaLoad
  | t, l =>
    match emitNode t l with
    | .error e => .error e
    | .ok l' =>
      match t with
      | .ptr t' | .arr _ t' | .typedef t' | .volatile t' | .cnst t' | .restrict t'
      | .declTag t' | .typeTag t' => emitLoop t' l'
      | _ => .ok l'

/-- The mask-application step of `emit_load`: a non-zero mask is only legal on
pointer or unsigned numeric loads. -/
def emitLoadMask (lop : MetaLoad) (mask : Nat) : Except String MetaLoad :=
  if mask > 0 then
    if lop.is_ptr || (lop.is_num && !lop.is_signed) then .ok { lop with mask := mask }
    else .error "mask is only supported for pointers and unsigned numeric members."
  else .ok lop

/-- The final conversions of `emit_load`: `lop.bf_size = u8::try_from(bfs)?`,
then `lop.offt = u16::try_from(offt)?` (still bit-granular here), then
`if bfs == 0 { lop.offt /= 8; }`. -/
def emitLoadFinish (lop : MetaLoad) (offt bfs : Nat) : Except String MetaLoad :=
  if bfs ≥ 256 then .error "out of range integral type conversion attempted"
  else if offt ≥ 65536 then .error "out of range integral type conversion attempted"
  else .ok { lop with bf_size := bfs, offt := if bfs = 0 then offt / 8 else offt }

/-- `MetaOp::emit_load` (the returned union entry is always read back through
the load view, so the result is a `MetaLoad`). -/
def emitLoad (t : Ty) (offt : Nat) (bfs : Nat) (mask : Nat) : Except String MetaLoad :=
  if !t.hasBtfType then .error "Unable to retrieve iterable BTF type"
  else
    match emitLoop t {} with
    | .error e => .error e
    | .ok lop =>
      match emitLoadMask lop mask with
      | .error e => .error e
      | .ok lop => emitLoadFinish lop offt bfs

/-! ## `Rval` and `MetaOp::emit_target` -/

/-- Right-hand-side literal classification (`Rval`). -/
inductive Rval : Type where
  | dec (s : List Char)
  | hex (s : List Char)
  | str (s : List Char)
deriving DecidableEq, Repr

/-- `Rval::from_str`.  A 1-character quoted token (just `"` or `'`) makes the
source panic on the slice `rval[1..len-1]`; the model surfaces that as an
error (no claim exercises this input). -/
def Rval.fromStr (rval : List Char) : Except String Rval :=
  let quoted (q : Char) : Bool :=
    match rval with
    | c :: _ => c = q && rval.getLast? = some q
    | [] => false
  if quoted '"' || quoted '\'' then
    if rval.length = 1 then .error "panic: byte index out of bounds"
    else .ok (.str (rval.drop 1).dropLast)
  else
    match rval with
    | '0' :: 'x' :: _ => .ok (.hex (strip0x rval))
    | _ => .ok (.dec rval)

/-- UTF-8 bytes of a `&str` given as a character list. -/
def listBytes (cs : List Char) : List Nat := (cs.map charUtf8).flatten

/-- The numeric right-hand-side parse in `emit_target`: signed decimal only if
the load is signed (then `as u64` two's complement), unsigned decimal, or
hex. -/
def targetLong (lmo : MetaLoad) : Rval → Except String Nat
  | .dec val =>
    if val.head? = some '-' then
      if !lmo.is_signed then
        .error "invalid target value (value is signed while type is unsigned)"
      else
        match parseI64? val with
        -- `val.parse::<i64>()? as u64`
        | some v => .ok (v.emod (2 ^ 64)).toNat
        | none => .error "invalid digit found in string"
    else
      match parseU64? val with
      | some v => .ok v
      | none => .error "invalid digit found in string"
  | .hex val =>
    match parseHexU64? val with
    | some v => .ok v
    | none => .error "invalid digit found in string"
  | .str _ => .error "invalid target value (neither decimal nor hex)."

/-- The active-byte count stored by `emit_target` for a numeric load: the
primitive byte width. -/
def targetSz (lmo : MetaLoad) : Except String Nat :=
  if lmo.is_byte then .ok 1
  else if lmo.is_short then .ok 2
  else if lmo.is_int then .ok 4
  else if lmo.is_long then .ok 8
  else .error "unexpected numeric type"

/-- `MetaOp::emit_target` (read back through the target view). -/
def emitTarget (lmo : MetaLoad) (rval : Rval) (cmp_op : MetaCmp) : Except String MetaTarget :=
  if lmo.is_ptr || lmo.nmemb > 0 then
    if cmp_op ≠ .eq ∧ cmp_op ≠ .ne then
      .error "wrong comparison operator. Only equality operators are supported for strings."
    else
      match rval with
      | .str val =>
        let bytes := listBytes val
        if bytes.length ≥ META_TARGET_MAX then .error "invalid rval size (max 31)."
        else
          .ok { md := bytes ++ List.replicate (META_TARGET_MAX - bytes.length) 0,
                sz := bytes.length, cmp := cmp_op.toU8 }
      | _ => .error "invalid target value for array or ptr type. Only strings are supported."
  else if lmo.is_num then
    match targetLong lmo rval with
    | .error e => .error e
    | .ok long =>
      match targetSz lmo with
      | .error e => .error e
      | .ok sz =>
        .ok { md := natLEBytes long 8 ++ List.replicate (META_TARGET_MAX - 8) 0,
              sz := sz, cmp := cmp_op.toU8 }
  else
    -- Neither a string-like nor a numeric load: the source falls through and
    -- only sets the comparator on the zeroed target.
    .ok { md := List.replicate META_TARGET_MAX 0, sz := 0, cmp := cmp_op.toU8 }

/-! ## `walk_btf_node`, `check_one_walkable`, `next_walkable` -/

/-- `walk_btf_node` (and its member-list traversal fused in, walking the
`mnil`/`mcons*` encoding of the member vector). -/
def walkBtfNode : Ty → String → Nat → Option (Nat × Option Nat × Ty)
  | .comp _ _ ms, nodeName, offset => walkBtfNode ms nodeName offset
  | .mconsR name boff bfs ty rest, nodeName, offset =>
    if name = nodeName then some (offset + boff, bfs, ty)
    else if name = "" then
      match ty with
      | .comp u n ms =>
        match walkBtfNode (Ty.comp u n ms) nodeName (offset + boff) with
        | some r => some r
        | none => walkBtfNode rest nodeName offset
      | _ => none
    else walkBtfNode rest nodeName offset
  | .mconsU name _ _ rest, nodeName, offset =>
    -- `resolve_chained_type(member).ok()` is `None`
    if name = nodeName then none
    else if name = "" then none
    else walkBtfNode rest nodeName offset
  | _, _, _ => none

/-- `FilterMeta::check_one_walkable`, returning the walkability flag and the
updated indirection counter. -/
def checkOneWalkable (t : Ty) (ind : Nat) : Except String (Bool × Nat) :=
  match t with
  | .ptr _ => .ok (false, ind + 1)
  | .comp _ _ _ => .ok (true, ind)
  | .typedef _ | .volatile _ | .cnst _ | .restrict _ | .declTag _ | .typeTag _ =>
    .ok (false, ind)
  | _ => .error ("unexpected type (" ++ t.name ++ ") while walking struct members")

/-- The `type_iter` loop of `FilterMeta::next_walkable`. -/
def nwLoop : Ty → Nat → Except String (Nat × Ty)
  | t, ind =>
    match t with
    | .ptr x | .arr _ x | .typedef x | .volatile x | .cnst x | .restrict x
    | .declTag x | .typeTag x =>
      (match checkOneWalkable x ind with
       | .error e => .error e
       | .ok (true, ind') => .ok (ind', x)
       | .ok (false, ind') => nwLoop x ind')
    | _ => .error "failed to retrieve next walkable object."

/-- `FilterMeta::next_walkable`. -/
def nextWalkable (t : Ty) : Except String (Nat × Ty) :=
  match checkOneWalkable t 0 with
  | .error e => .error e
  | .ok (true, _) => .ok (0, t)
  | .ok (false, ind) =>
    if t.hasBtfType then nwLoop t ind
    else .error "cannot convert to iterable type while retrieving next walkable"

/-! ## `FilterMeta::parse_filter` and `FilterMeta::from_string` -/

/-- One dotted component of the lhs (`LhsNode`). -/
structure LhsNode where
  member : String
  mask : Nat
deriving DecidableEq, Repr

/-- `FilterMeta::parse_mask`. -/
def parseMask (el : List Char) : Except String Nat :=
  let (el, no) :=
    match el with
    | '~' :: rest => (rest, true)
    | other => (other, false)
  match el with
  | '0' :: 'x' :: hex =>
    match parseHexU64? hex with
    | some num => .ok (if no then 2 ^ 64 - 1 - num else num)
    | none => .error "invalid digit found in string"
  | _ => .error "invalid mask format"

/-- Parse one dotted lhs component `name[:mask[...]]` (the closure inside
`parse_filter`; a third `:`-field is silently ignored by the source). -/
def parseNode (comp : List Char) : Except String LhsNode :=
  match splitOnChar ':' comp with
  | [] => .error "member is mandatory"
  | m :: rest =>
    match rest with
    | [] => .ok ⟨String.mk m, 0⟩
    | el :: _ =>
      match parseMask el with
      | .error e => .error e
      | .ok mask => .ok ⟨String.mk m, mask⟩

/-- Parse every dotted component in order, failing on the first bad one (the
`collect::<Result<Vec<_>>>` step of `parse_filter`). -/
def parseNodes : List (List Char) → Except String (List LhsNode)
  | [] => .ok []
  | c :: rest =>
    match parseNode c with
    | .error e => .error e
    | .ok n =>
      match parseNodes rest with
      | .error e => .error e
      | .ok ns => .ok (n :: ns)

/-- The shared tail of `parse_filter` once the token triple is fixed: parse
the dotted lhs, enforce `lhs.len() <= 1 || lhs[0].member != "sk_buff"`, parse
the comparator. -/
def parseFilterCore (lhs op rhs : List Char) :
    Except String (List LhsNode × MetaCmp × List Char) :=
  match parseNodes (splitOnChar '.' lhs) with
  | .error e => .error e
  | .ok nodes =>
    -- `lhs[0]` is only read when `lhs.len() > 1` thanks to `||` short-circuit,
    -- so the default head is never observed.
    if nodes.length ≤ 1 ∨ (nodes.headD ⟨"", 0⟩).member ≠ "sk_buff" then
      .error "invalid lhs"
    else
      match MetaCmp.fromStr (String.mk op) with
      | .error e => .error e
      | .ok cmp => .ok (nodes, cmp, rhs)

/-- `FilterMeta::parse_filter`. -/
def parseFilter (filter : String) : Except String (List LhsNode × MetaCmp × List Char) :=
  match splitOnChar ' ' filter.toList with
  | [lhs, op, rhs] => parseFilterCore lhs op rhs
  | [lhs] => parseFilterCore lhs "!=".toList "0".toList
  | _ => .error ("invalid filter (" ++ filter ++ ")")

/-- `stored_bf_size` update: only overwritten when the member carries a
bitfield size. -/
def updBf (cur : Nat) : Option Nat → Nat
  | some b => b
  | none => cur

/-- The field loop of `FilterMeta::from_string`; the accumulator mirrors the
mutable locals `offt`, `stored_offset`, `stored_bf_size`, `mask`, `ops` and
the walked-to type. -/
def fromLoop : Ty → List LhsNode → Nat → Nat → Nat → Nat → List MetaOp →
    Except String (Ty × Nat × Nat × Nat × List MetaOp)
  | ty, [], _, so, sbf, mask, ops => .ok (ty, so, sbf, mask, ops)
  | ty, [f], offt, _, sbf, _, ops =>
    -- terminal field: `*r#type = snode; mask = field.mask`
    match walkBtfNode ty f.member offt with
    | none => .error (f.member ++ " not found!")
    | some (offset, bfs, snode) => .ok (snode, offset, updBf sbf bfs, f.mask, ops)
  | ty, f :: g :: rest, offt, _, sbf, mask, ops =>
    match walkBtfNode ty f.member offt with
    | none => .error (f.member ++ " not found!")
    | some (offset, bfs, snode) =>
      match nextWalkable snode with
      | .error e => .error e
      | .ok (ind, x) =>
        if ind = 1 then
          -- `op.l.offt = u16::try_from(offset / 8)?`
          if offset / 8 ≥ 65536 then
            .error "out of range integral type conversion attempted"
          else
            fromLoop x (g :: rest) 0 offset (updBf sbf bfs) mask
              (ops ++ [.load { r_type := PTR_BIT, nmemb := 0, offt := offset / 8,
                               bf_size := 0, mask := f.mask }])
        else if 1 < ind then .error "pointers of pointers are not supported"
        else
          if f.mask ≠ 0 then .error "mask for non-ptr intermediate members is not supported"
          else fromLoop x (g :: rest) offset offset (updBf sbf bfs) mask ops

/-- `FilterMeta::from_string`.  The kernel BTF reached through
`inspector()?.kernel.btf` is abstracted as the resolver `env` mapping a type
name to the list of matching BTF types (`Btf::resolve_types_by_name`). -/
def fromString (env : String → Except String (List Ty)) (fstring : String) :
    Except String (List MetaOp) :=
  match parseFilter fstring with
  | .error e => .error e
  | .ok (nodes, op, rvalStr) =>
    match nodes with
    | [] => .error "invalid lhs" -- unreachable: `parse_filter` yields ≥ 2 nodes
    | initNode :: fields =>
      match env initNode.member with
      | .error e => .error ("unable to resolve sk_buff data type " ++ e)
      | .ok types =>
        match types.find? (fun t => match t with | .comp false _ _ => true | _ => false) with
        | none => .error ("Could not resolve " ++ initNode.member ++ " to a struct")
        | some ty0 =>
          match fromLoop ty0 fields 0 0 0 0 [] with
          | .error e => .error e
          | .ok (tyF, so, sbf, mask, ops) =>
            match emitLoad tyF so sbf mask with
            | .error e => .error e
            | .ok lmo =>
              match Rval.fromStr rvalStr with
              | .error e => .error e
              | .ok rval =>
                match emitTarget lmo rval op with
                | .error e => .error e
                | .ok tgt => .ok (.target tgt :: (ops ++ [.load lmo]))

/-- Whether an `anyhow::Result` is `Ok`. -/
def isOkE {α : Type} : Except String α → Bool
  | .ok _ => true
  | .error _ => false

/-! ### Concrete BTF fragments used as evaluation inputs

`skbTy` mirrors the slice of the kernel's `sk_buff` BTF that the source's own
unit tests exercise (`dev` pointer at byte 16 to `net_device` whose `name` is
`char[16]` at byte 0 and `mtu` a `u32` at byte 40; the 3-bit `pkt_type`
bitfield at bit 1024; the `u32` `mark` at byte 168; the anonymous-structured
`headers` area with the signed `skb_iif`). -/

def u32Ty : Ty := .int 4 false

def charTy : Ty := .int 1 false

def netDeviceTy : Ty :=
  .comp false "net_device"
    (.mconsR "name" 0 none (.arr 16 charTy)
      (.mconsR "mtu" 320 none u32Ty .mnil))

def skbTy : Ty :=
  .comp false "sk_buff"
    (.mconsR "dev" 128 none (.ptr netDeviceTy)
      (.mconsR "pkt_type" 1024 (some 3) charTy
        (.mconsR "mark" 1344 none u32Ty
          (.mconsR "headers" 1472 none
            (.comp false "headers" (.mconsR "skb_iif" 0 none (.int 4 true) .mnil))
            .mnil))))

/-- BTF resolver exposing the `sk_buff` fragment above. -/
def skbEnv : String → Except String (List Ty) :=
  fun n => if n = "sk_buff" then .ok [skbTy] else .error "no such type"

/-- A `sk_buff` whose single member `p` starts a chain of `n` pointer
indirections ending at a struct with a `u32` member `v`; kernel BTF reaches
such depths through self-referencing pointers (e.g. `device.parent`). -/
def chainTy : Nat → Ty
  | 0 => .comp false "s0" (.mconsR "v" 0 none u32Ty .mnil)
  | n + 1 => .comp false "s" (.mconsR "p" 0 none (.ptr (chainTy n)) .mnil)

/-- BTF resolver exposing a 32-deep pointer chain under `sk_buff`. -/
def chainEnv : String → Except String (List Ty) :=
  fun n => if n = "sk_buff" then .ok [chainTy 32] else .error "no such type"

/-- A metadata filter expression with 32 pointer indirections and a `u32`
leaf. -/
def chainExpr : String :=
  "sk_buff.p.p.p.p.p.p.p.p.p.p.p.p.p.p.p.p.p.p.p.p.p.p.p.p.p.p.p.p.p.p.p.p.v"

/-! ## Kernel event factory (`src/src/core/probe/kernel/kernel.rs`)

The kernel-side collaborators are abstracted as pure lookup functions:
`resolveSym` models `Symbol::from_addr(..)?.name()` (the symbol registry,
whose implementation lives outside `src/`), `stackLookup` models
`stack_map.lookup` keyed by the `i32` stack id value, and `symNear` models
`inspect::get_name_offt_from_addr_near`. -/

/-- A raw BPF event section (`BpfRawSection`): header data type plus payload
bytes. -/
structure BpfRawSection where
  data_type : Nat
  data : List Nat
deriving DecidableEq, Repr

/-- The decoded kernel event (`KernelEvent`). -/
structure KernelEvent where
  symbol : String
  probe_type : String
  stack_trace : Option (List String) := none
deriving DecidableEq, Repr

/-- Group a byte list into native-endian `u64` words, dropping an incomplete
tail (this is `slice::from_raw_parts(ptr, len / 8)` on the stack-map bytes). -/
def u64Chunks : List Nat → List Nat
  | b0 :: b1 :: b2 :: b3 :: b4 :: b5 :: b6 :: b7 :: rest =>
    leU64 [b0, b1, b2, b3, b4, b5, b6, b7] :: u64Chunks rest
  | _ => []

/-- Symbolize the program counters of one stack: stop at the first zero PC,
format `"symbol+0xoffset"` on a near-symbol hit and `"0xPC"` otherwise. -/
def stackFrames (symNear : Nat → Option (String × Nat)) (pcs : List Nat) : List String :=
  (pcs.takeWhile (fun pc => pc ≠ 0)).map fun pc =>
    match symNear pc with
    | some (sym, off) => sym ++ "+" ++ hexStr off
    | none => hexStr pc

/-- `KernelEventFactory::unmarshal_stackid`.  The only fallible step in the
source is the `stack_map.lookup` syscall; with the map abstracted as a pure
function the operation always succeeds, and a missing entry yields an empty
trace (`Some []`), not an error. -/
def unmarshalStackid (stackLookup : Int → Option (List Nat))
    (symNear : Nat → Option (String × Nat)) (event : KernelEvent) (stackid : Int) :
    KernelEvent :=
  if 0 ≤ stackid then
    let trace :=
      match stackLookup stackid with
      | some bytes => stackFrames symNear (u64Chunks bytes)
      | none => []
    { event with stack_trace := some trace }
  else event

/-- The stack-id field of a 17-byte kernel section, read as the `u64`
bit-pattern of bytes 9..17. -/
def stackIdBits (data : List Nat) : Nat := leU64 ((data.drop 9).take 8)

/-- `raw.data[8]`, the probe-kind byte of a kernel section. -/
def byte8 (data : List Nat) : Nat := data.getD 8 0

/-- `KernelEventFactory::from_raw`. -/
def kernelFromRaw (resolveSym : Nat → Option String)
    (stackLookup : Int → Option (List Nat)) (symNear : Nat → Option (String × Nat))
    (raw_sections : List BpfRawSection) : Except String KernelEvent :=
  match raw_sections with
  | [raw] =>
    if raw.data_type ≠ 1 then .error "Unknown data type"
    else if raw.data.length ≠ 17 then
      .error "Section data is not the expected size"
    else
      match resolveSym (leU64 (raw.data.take 8)) with
      | none => .error "symbol not found"
      | some name =>
        match
          (if byte8 raw.data = 0 then .ok "kprobe"
           else if byte8 raw.data = 1 then .ok "kretprobe"
           else if byte8 raw.data = 2 then .ok "raw_tracepoint"
           else .error "Unknown probe type" : Except String String)
        with
        | .error e => .error e
        | .ok pt =>
          -- `i64::from_ne_bytes(raw.data[9..17]) as i32`
          let event : KernelEvent := { symbol := name, probe_type := pt }
          .ok (unmarshalStackid stackLookup symNear event (asI32 (stackIdBits raw.data)))
  | _ => .error "Kernel event from BPF must be a single section"

/-! ## Packet filter compiler front door
(`src/retis/src/core/filters/packets/filter.rs`)

The pcap front end (`Capture::dead` + `compile`), the cBPF parser
(`BpfProg::try_from`) and the cBPF→eBPF rewriter (`eBpfProg::try_from`) are
external to `src/`; they are abstracted by the `translate` parameter, mapping
a link type and a filter string to the translated eBPF instruction list (an
instruction is opaque here).  `FILTER_MAX_INSNS` comes from generated
bindings, so it stays a parameter. -/

/-- The three match arms of `from_string_opt` on
`packet_filter_uapi::filter_type`. -/
inductive FilterLayerCode : Type where
  | l2 | l3 | other
deriving DecidableEq, Repr

/-- Link type selection in `from_string_opt` (`L3 → DLT_RAW = 12`,
`L2 → ETHERNET = 1`, anything else is rejected). -/
def linktypeOf : FilterLayerCode → Except String Nat
  | .l3 => .ok 12
  | .l2 => .ok 1
  | .other => .error "Unsupported filter type"

/-- `FilterPacket::from_string_opt`. -/
def fromStringOpt (maxInsns : Nat)
    (translate : Nat → String → Except String (List Nat)) (fstring : String)
    (layer : FilterLayerCode) : Except String (List Nat) :=
  match linktypeOf layer with
  | .error e => .error e
  | .ok lt =>
    match translate lt fstring with
    | .error e => .error ("Could not compile the filter: " ++ e)
    | .ok insns =>
      if insns.length > maxInsns then .error "Filter exceeds the maximum allowed size."
      else .ok insns

/-! ## OVS events and their JSON form (`src/retis-events/src/ovs.rs`)

The serde-derived JSON encoding is embedded directly: `OvsEvent` is
internally tagged by `event_type` with the variant payload flattened into the
same object, `OvsAction` is internally tagged by `action`, `Option` fields
serialize as `null` except where `skip_serializing_if = "Option::is_none"`
omits the key (`ActionEvent::queue_id`, `OvsActionCt::nat`), and
`OperationEvent::op_type` uses the custom `serialize_op`/`deserialize_op`
(string `"exec"`/`"put"`; other byte values make serialization fail).
Unsigned Rust fields are `Nat` and `i32` is `Int`; the `wf` predicates state
the machine-integer ranges the Rust types enforce by construction. -/

/-- JSON values (arrays are not needed by these events). -/
inductive Json : Type where
  | null
  | bool (b : Bool)
  | num (n : Int)
  | str (s : String)
  | obj (fields : List (String × Json))
deriving Repr

/-- Key lookup in a JSON object's field list. -/
def jGet : List (String × Json) → String → Option Json
  | [], _ => none
  | (k, v) :: rest, key => if k = key then some v else jGet rest key

/-- Read a JSON number as an unsigned value below `bound`. -/
def Json.asNatLt (bound : Nat) : Json → Option Nat
  | .num n => if 0 ≤ n ∧ n.toNat < bound then some n.toNat else none
  | _ => none

/-- Read a JSON number as an `i32`. -/
def Json.asInt32 : Json → Option Int
  | .num n => if -(2 ^ 31) ≤ n ∧ n < 2 ^ 31 then some n else none
  | _ => none

/-- `UpcallEvent`: `cmd: u8`, `port: u32`, `cpu: u32`. -/
structure UpcallEvent where
  cmd : Nat
  port : Nat
  cpu : Nat
deriving DecidableEq, Repr

def UpcallEvent.wf (u : UpcallEvent) : Prop :=
  u.cmd < 256 ∧ u.port < 4294967296 ∧ u.cpu < 4294967296

/-- `UpcallEnqueueEvent`: `ret: i32`, `cmd: u8`, `port: u32`, `upcall_ts: u64`,
`upcall_cpu: u32`, `queue_id: u32`. -/
structure UpcallEnqueueEvent where
  ret : Int
  cmd : Nat
  port : Nat
  upcall_ts : Nat
  upcall_cpu : Nat
  queue_id : Nat
deriving DecidableEq, Repr

def UpcallEnqueueEvent.wf (u : UpcallEnqueueEvent) : Prop :=
  -(2 ^ 31) ≤ u.ret ∧ u.ret < 2 ^ 31 ∧ u.cmd < 256 ∧ u.port < 4294967296 ∧
    u.upcall_ts < 18446744073709551616 ∧ u.upcall_cpu < 4294967296 ∧
    u.queue_id < 4294967296

/-- `UpcallReturnEvent`: `upcall_ts: u64`, `upcall_cpu: u32`, `ret: i32`. -/
structure UpcallReturnEvent where
  upcall_ts : Nat
  upcall_cpu : Nat
  ret : Int
deriving DecidableEq, Repr

def UpcallReturnEvent.wf (u : UpcallReturnEvent) : Prop :=
  u.upcall_ts < 18446744073709551616 ∧ u.upcall_cpu < 4294967296 ∧
    -(2 ^ 31) ≤ u.ret ∧ u.ret < 2 ^ 31

/-- `OperationEvent`: `op_type: u8`, `queue_id: u32`, `batch_ts: u64`,
`batch_idx: u8`. -/
structure OperationEvent where
  op_type : Nat
  queue_id : Nat
  batch_ts : Nat
  batch_idx : Nat
deriving DecidableEq, Repr

def OperationEvent.wf (o : OperationEvent) : Prop :=
  o.op_type < 256 ∧ o.queue_id < 4294967296 ∧ o.batch_ts < 18446744073709551616 ∧
    o.batch_idx < 256

/-- `RecvUpcallEvent`: `r#type: u32`, `pkt_size: u32`, `key_size: u64`,
`queue_id: u32`, `batch_ts: u64`, `batch_idx: u8`. -/
structure RecvUpcallEvent where
  r_type : Nat
  pkt_size : Nat
  key_size : Nat
  queue_id : Nat
  batch_ts : Nat
  batch_idx : Nat
deriving DecidableEq, Repr

def RecvUpcallEvent.wf (r : RecvUpcallEvent) : Prop :=
  r.r_type < 4294967296 ∧ r.pkt_size < 4294967296 ∧ r.key_size < 18446744073709551616 ∧
    r.queue_id < 4294967296 ∧ r.batch_ts < 18446744073709551616 ∧ r.batch_idx < 256

/-- `OvsActionOutput`: `port: u32`. -/
structure OvsActionOutput where
  port : Nat
deriving DecidableEq, Repr

/-- `OvsActionRecirc`: `id: u32`. -/
structure OvsActionRecirc where
  id : Nat
deriving DecidableEq, Repr

/-- `NatDirection`. -/
inductive NatDirection : Type where
  | src | dst
deriving DecidableEq, Repr

/-- `OvsActionCtNat`. -/
structure OvsActionCtNat where
  dir : Option NatDirection
  min_addr : Option String
  max_addr : Option String
  min_port : Option Nat
  max_port : Option Nat
deriving DecidableEq, Repr

def OvsActionCtNat.wf (n : OvsActionCtNat) : Prop :=
  (∀ p ∈ n.min_port, p < 65536) ∧ (∀ p ∈ n.max_port, p < 65536)

/-- `OvsActionCt`: `flags: u32`, `zone_id: u16`, optional NAT data. -/
structure OvsActionCt where
  flags : Nat
  zone_id : Nat
  nat : Option OvsActionCtNat
deriving DecidableEq, Repr

def OvsActionCt.wf (c : OvsActionCt) : Prop :=
  c.flags < 4294967296 ∧ c.zone_id < 65536 ∧ ∀ n ∈ c.nat, n.wf

/-- `OvsAction`.  Variants holding `OvsDummyAction` (a unit struct) are
nullary here. -/
inductive OvsAction : Type where
  | output (output : OvsActionOutput)
  | userspace | set | pushVlan | popVlan | sample
  | recirc (recirc : OvsActionRecirc)
  | hash | pushMpls | popMpls | setMasked
  | ct (ct : OvsActionCt)
  | trunc | pushEth | popEth | ctClear | pushNsh | popNsh | meter | clone
  | checkPktLen | addMpls | decTtl
  | drop (reason : Nat)
deriving DecidableEq, Repr

def OvsAction.wf : OvsAction → Prop
  | .output o => o.port < 4294967296
  | .recirc r => r.id < 4294967296
  | .ct c => c.wf
  | .drop reason => reason < 4294967296
  | _ => True

/-- `ActionEvent`: optional flattened action, `recirc_id: u32`, `mru: u16`,
`action_address: u64`, optional `queue_id: u32`. -/
structure ActionEvent where
  action : Option OvsAction
  recirc_id : Nat
  mru : Nat
  action_address : Nat
  queue_id : Option Nat
deriving DecidableEq, Repr

def ActionEvent.wf (a : ActionEvent) : Prop :=
  (∀ act ∈ a.action, act.wf) ∧ a.recirc_id < 4294967296 ∧ a.mru < 65536 ∧
    a.action_address < 18446744073709551616 ∧ ∀ q ∈ a.queue_id, q < 4294967296

/-- `OvsEvent`. -/
inductive OvsEvent : Type where
  | upcall (upcall : UpcallEvent)
  | upcallEnqueue (upcall_enqueue : UpcallEnqueueEvent)
  | upcallReturn (upcall_return : UpcallReturnEvent)
  | recvUpcall (recv_upcall : RecvUpcallEvent)
  | operation (flow_operation : OperationEvent)
  | action (action_execute : ActionEvent)
deriving DecidableEq, Repr

def OvsEvent.wf : OvsEvent → Prop
  | .upcall u => u.wf
  | .upcallEnqueue u => u.wf
  | .upcallReturn u => u.wf
  | .recvUpcall r => r.wf
  | .operation o => o.wf
  | .action a => a.wf

/-- `OperationEvent::operation_str` (also the string used by
`serialize_op`). -/
def operationStr (op_type : Nat) : Except String String :=
  if op_type = 0 then .ok "exec"
  else if op_type = 1 then .ok "put"
  else .error ("Unknown operation type " ++ toString op_type)

/-- JSON form of an `Option NatDirection` field (serialized as
`"src"`/`"dst"`/`null`). -/
def natDirJson : Option NatDirection → Json
  | none => .null
  | some .src => .str "src"
  | some .dst => .str "dst"

def optStrJson : Option String → Json
  | none => .null
  | some s => .str s

def optNumJson : Option Nat → Json
  | none => .null
  | some n => .num n

/-- JSON object for `OvsActionCtNat` (every field is emitted, `null` when
absent). -/
def ctNatToJson (n : OvsActionCtNat) : Json :=
  .obj [("dir", natDirJson n.dir), ("min_addr", optStrJson n.min_addr),
        ("max_addr", optStrJson n.max_addr), ("min_port", optNumJson n.min_port),
        ("max_port", optNumJson n.max_port)]

/-- Flattened JSON fields of an `OvsAction` (internally tagged by
`action`). -/
def OvsAction.toJsonFields : OvsAction → List (String × Json)
  | .output o => [("action", .str "output"), ("port", .num o.port)]
  | .userspace => [("action", .str "userspace")]
  | .set => [("action", .str "set")]
  | .pushVlan => [("action", .str "push_vlan")]
  | .popVlan => [("action", .str "pop_vlan")]
  | .sample => [("action", .str "sample")]
  | .recirc r => [("action", .str "recirc"), ("id", .num r.id)]
  | .hash => [("action", .str "hash")]
  | .pushMpls => [("action", .str "push_mpls")]
  | .popMpls => [("action", .str "pop_mpls")]
  | .setMasked => [("action", .str "set_masked")]
  | .ct c =>
    ("action", .str "ct") :: ("flags", .num c.flags) :: ("zone_id", .num c.zone_id) ::
      (match c.nat with
       | none => []
       | some n => [("nat", ctNatToJson n)])
  | .trunc => [("action", .str "trunc")]
  | .pushEth => [("action", .str "push_eth")]
  | .popEth => [("action", .str "pop_eth")]
  | .ctClear => [("action", .str "ct_clear")]
  | .pushNsh => [("action", .str "push_nsh")]
  | .popNsh => [("action", .str "pop_nsh")]
  | .meter => [("action", .str "meter")]
  | .clone => [("action", .str "clone")]
  | .checkPktLen => [("action", .str "check_pkt_len")]
  | .addMpls => [("action", .str "add_mpls")]
  | .decTtl => [("action", .str "dec_ttl")]
  | .drop reason => [("action", .str "drop"), ("reason", .num reason)]

/-- `serde_json::to_string` on an `OvsEvent` (as a JSON value; the only
fallible step is `serialize_op` on `flow_operation`). -/
def ovsToJson : OvsEvent → Except String Json
  | .upcall u =>
    .ok (.obj [("event_type", .str "upcall"), ("cmd", .num u.cmd),
               ("port", .num u.port), ("cpu", .num u.cpu)])
  | .upcallEnqueue u =>
    .ok (.obj [("event_type", .str "upcall_enqueue"), ("ret", .num u.ret),
               ("cmd", .num u.cmd), ("port", .num u.port),
               ("upcall_ts", .num u.upcall_ts), ("upcall_cpu", .num u.upcall_cpu),
               ("queue_id", .num u.queue_id)])
  | .upcallReturn u =>
    .ok (.obj [("event_type", .str "upcall_return"), ("upcall_ts", .num u.upcall_ts),
               ("upcall_cpu", .num u.upcall_cpu), ("ret", .num u.ret)])
  | .recvUpcall r =>
    .ok (.obj [("event_type", .str "recv_upcall"), ("type", .num r.r_type),
               ("pkt_size", .num r.pkt_size), ("key_size", .num r.key_size),
               ("queue_id", .num r.queue_id), ("batch_ts", .num r.batch_ts),
               ("batch_idx", .num r.batch_idx)])
  | .operation o =>
    match operationStr o.op_type with
    | .error e => .error e
    | .ok s =>
      .ok (.obj [("event_type", .str "flow_operation"), ("op_type", .str s),
                 ("queue_id", .num o.queue_id), ("batch_ts", .num o.batch_ts),
                 ("batch_idx", .num o.batch_idx)])
  | .action a =>
    .ok (.obj (("event_type", .str "action_execute") ::
      ((match a.action with
        | none => []
        | some act => act.toJsonFields) ++
       [("recirc_id", .num a.recirc_id), ("mru", .num a.mru),
        ("action_address", .num a.action_address)] ++
       (match a.queue_id with
        | none => []
        | some q => [("queue_id", .num q)]))))

/-- Deserialize an `Option NatDirection` field. -/
def parseDir : Option Json → Option (Option NatDirection)
  | none => some none
  | some .null => some none
  | some (.str s) =>
    if s = "src" then some (some .src)
    else if s = "dst" then some (some .dst)
    else none
  | some _ => none

def parseOptStr : Option Json → Option (Option String)
  | none => some none
  | some .null => some none
  | some (.str s) => some (some s)
  | some _ => none

def parseOptNatLt (bound : Nat) : Option Json → Option (Option Nat)
  | none => some none
  | some .null => some none
  | some j => (j.asNatLt bound).map some

/-- Deserialize `OvsActionCtNat`. -/
def ctNatFromJson : Json → Option OvsActionCtNat
  | .obj fs => do
    let dir ← parseDir (jGet fs "dir")
    let min_addr ← parseOptStr (jGet fs "min_addr")
    let max_addr ← parseOptStr (jGet fs "max_addr")
    let min_port ← parseOptNatLt 65536 (jGet fs "min_port")
    let max_port ← parseOptNatLt 65536 (jGet fs "max_port")
    some ⟨dir, min_addr, max_addr, min_port, max_port⟩
  | _ => none

/-- Deserialize the optional `nat` field of a `ct` action (`null` or a
missing key is `None`). -/
def parseOptCtNat : Option Json → Option (Option OvsActionCtNat)
  | none => some none
  | some .null => some none
  | some j => (ctNatFromJson j).map some

/-- Deserialize the flattened `OvsAction` from the enclosing object's
fields. -/
def ovsActionFromFields (fs : List (String × Json)) : Option (Option OvsAction) :=
  match jGet fs "action" with
  | none => some none
  | some (.str tag) =>
    if tag = "output" then do
      let port ← (jGet fs "port").bind (Json.asNatLt 4294967296)
      some (some (.output ⟨port⟩))
    else if tag = "userspace" then some (some .userspace)
    else if tag = "set" then some (some .set)
    else if tag = "push_vlan" then some (some .pushVlan)
    else if tag = "pop_vlan" then some (some .popVlan)
    else if tag = "sample" then some (some .sample)
    else if tag = "recirc" then do
      let id ← (jGet fs "id").bind (Json.asNatLt 4294967296)
      some (some (.recirc ⟨id⟩))
    else if tag = "hash" then some (some .hash)
    else if tag = "push_mpls" then some (some .pushMpls)
    else if tag = "pop_mpls" then some (some .popMpls)
    else if tag = "set_masked" then some (some .setMasked)
    else if tag = "ct" then do
      let flags ← (jGet fs "flags").bind (Json.asNatLt 4294967296)
      let zone_id ← (jGet fs "zone_id").bind (Json.asNatLt 65536)
      let nat ← parseOptCtNat (jGet fs "nat")
      some (some (.ct ⟨flags, zone_id, nat⟩))
    else if tag = "trunc" then some (some .trunc)
    else if tag = "push_eth" then some (some .pushEth)
    else if tag = "pop_eth" then some (some .popEth)
    else if tag = "ct_clear" then some (some .ctClear)
    else if tag = "push_nsh" then some (some .pushNsh)
    else if tag = "pop_nsh" then some (some .popNsh)
    else if tag = "meter" then some (some .meter)
    else if tag = "clone" then some (some .clone)
    else if tag = "check_pkt_len" then some (some .checkPktLen)
    else if tag = "add_mpls" then some (some .addMpls)
    else if tag = "dec_ttl" then some (some .decTtl)
    else if tag = "drop" then do
      let reason ← (jGet fs "reason").bind (Json.asNatLt 4294967296)
      some (some (.drop reason))
    else none
  | some _ => none

/-- `serde_json::from_str` into an `OvsEvent` (dispatch on `event_type`,
per-variant field extraction; `deserialize_op` for `op_type`). -/
def ovsFromJson : Json → Option OvsEvent
  | .obj fs =>
    match jGet fs "event_type" with
    | some (.str tag) =>
      if tag = "upcall" then do
        let cmd ← (jGet fs "cmd").bind (Json.asNatLt 256)
        let port ← (jGet fs "port").bind (Json.asNatLt 4294967296)
        let cpu ← (jGet fs "cpu").bind (Json.asNatLt 4294967296)
        some (.upcall ⟨cmd, port, cpu⟩)
      else if tag = "upcall_enqueue" then do
        let ret ← (jGet fs "ret").bind Json.asInt32
        let cmd ← (jGet fs "cmd").bind (Json.asNatLt 256)
        let port ← (jGet fs "port").bind (Json.asNatLt 4294967296)
        let upcall_ts ← (jGet fs "upcall_ts").bind (Json.asNatLt 18446744073709551616)
        let upcall_cpu ← (jGet fs "upcall_cpu").bind (Json.asNatLt 4294967296)
        let queue_id ← (jGet fs "queue_id").bind (Json.asNatLt 4294967296)
        some (.upcallEnqueue ⟨ret, cmd, port, upcall_ts, upcall_cpu, queue_id⟩)
      else if tag = "upcall_return" then do
        let upcall_ts ← (jGet fs "upcall_ts").bind (Json.asNatLt 18446744073709551616)
        let upcall_cpu ← (jGet fs "upcall_cpu").bind (Json.asNatLt 4294967296)
        let ret ← (jGet fs "ret").bind Json.asInt32
        some (.upcallReturn ⟨upcall_ts, upcall_cpu, ret⟩)
      else if tag = "recv_upcall" then do
        let ty ← (jGet fs "type").bind (Json.asNatLt 4294967296)
        let pkt_size ← (jGet fs "pkt_size").bind (Json.asNatLt 4294967296)
        let key_size ← (jGet fs "key_size").bind (Json.asNatLt 18446744073709551616)
        let queue_id ← (jGet fs "queue_id").bind (Json.asNatLt 4294967296)
        let batch_ts ← (jGet fs "batch_ts").bind (Json.asNatLt 18446744073709551616)
        let batch_idx ← (jGet fs "batch_idx").bind (Json.asNatLt 256)
        some (.recvUpcall ⟨ty, pkt_size, key_size, queue_id, batch_ts, batch_idx⟩)
      else if tag = "flow_operation" then do
        let op_type ←
          match jGet fs "op_type" with
          | some (.str s) =>
            if s = "exec" then some 0 else if s = "put" then some 1 else none
          | _ => none
        let queue_id ← (jGet fs "queue_id").bind (Json.asNatLt 4294967296)
        let batch_ts ← (jGet fs "batch_ts").bind (Json.asNatLt 18446744073709551616)
        let batch_idx ← (jGet fs "batch_idx").bind (Json.asNatLt 256)
        some (.operation ⟨op_type, queue_id, batch_ts, batch_idx⟩)
      else if tag = "action_execute" then do
        let action ← ovsActionFromFields fs
        let recirc_id ← (jGet fs "recirc_id").bind (Json.asNatLt 4294967296)
        let mru ← (jGet fs "mru").bind (Json.asNatLt 65536)
        let action_address ← (jGet fs "action_address").bind (Json.asNatLt 18446744073709551616)
        let queue_id ← parseOptNatLt 4294967296 (jGet fs "queue_id")
        some (.action ⟨action, recirc_id, mru, action_address, queue_id⟩)
      else none
    | _ => none
  | _ => none

/-- The probe-type string decoded from byte 8 (meaningful for byte values
0, 1, 2; `from_raw` errors on anything else). -/
def probeTypeStr (b : Nat) : String :=
  if b = 0 then "kprobe" else if b = 1 then "kretprobe" else "raw_tracepoint"

/-- The exact error domain of `KernelEventFactory::from_raw`: not exactly one
section, wrong data type, wrong payload size, unresolvable address, or an
unknown probe-kind byte. -/
def kernelErrCond (resolveSym : Nat → Option String) : List BpfRawSection → Prop
  | [raw] =>
    raw.data_type ≠ 1 ∨ raw.data.length ≠ 17 ∨
      resolveSym (leU64 (raw.data.take 8)) = none ∨ 2 < byte8 raw.data
  | _ => True

/-! ### Concrete kernel-event fixtures -/

/-- A registry resolving only address 1. -/
def oneSymRes : Nat → Option String :=
  fun a => if a = 1 then some "kfree_skb" else none

/-- A stack map holding one 8-byte stack (PC 5 then the zero terminator) for
every id. -/
def fullStackMap : Int → Option (List Nat) :=
  fun _ => some [5, 0, 0, 0, 0, 0, 0, 0, 0, 0, 0, 0, 0, 0, 0, 0]

/-- A nearest-symbol oracle that never resolves. -/
def noNear : Nat → Option (String × Nat) := fun _ => none

/-- A 17-byte kernel section: address 1, probe byte 0 (kprobe), stack-id bit
pattern `0x80000000` (positive as `i64`, negative once truncated to
`i32`). -/
def stackIdBoundaryData : List Nat :=
  [1, 0, 0, 0, 0, 0, 0, 0, 0, 0, 0, 0, 128, 0, 0, 0, 0]

/-- A 17-byte kernel section: address 1, probe byte 1 (kretprobe), stack id
3. -/
def plainKretData : List Nat :=
  [1, 0, 0, 0, 0, 0, 0, 0, 1, 3, 0, 0, 0, 0, 0, 0, 0]

/-! ## Theorems -/

/-- C10: in `emit_load` the accumulated bit offset is converted to `u16`
before the division by 8, so any terminal whose bit offset exceeds 65535 makes
compilation fail — in particular every non-bitfield terminal at a byte offset
greater than 8191 is rejected even though the byte offset itself would fit the
16-bit `offt` field. -/
theorem emitLoad_rejects_large_bit_offsets :
    (∀ (t : Ty) (offt bfs mask : Nat), 65535 < offt →
      isOkE (emitLoad t offt bfs mask) = false) ∧
    (∀ (t : Ty) (byteOff mask : Nat), 8191 < byteOff →
      isOkE (emitLoad t (8 * byteOff) 0 mask) = false) := by
  have fin : ∀ (lop : MetaLoad) (offt bfs : Nat), 65535 < offt →
      isOkE (emitLoadFinish lop offt bfs) = false := by
    intro lop offt bfs h
    unfold emitLoadFinish
    by_cases h' : bfs ≥ 256
    · rw [if_pos h']
      rfl
    · rw [if_neg h', if_pos (by omega)]
      rfl
  have main : ∀ (t : Ty) (offt bfs mask : Nat), 65535 < offt →
      isOkE (emitLoad t offt bfs mask) = false := by
    intro t offt bfs mask h
    unfold emitLoad
    split
    · rfl
    · split
      · rfl
      · split
        · rfl
        · exact fin _ _ _ h
  exact ⟨main, fun t byteOff mask h => main t (8 * byteOff) 0 mask (by omega)⟩

/-- C10 witness: the bit offset 65536 (byte offset 8192) is rejected on a
plain `u32` terminal. -/
theorem emitLoad_rejects_large_bit_offsets_witness :
    (65535 : Nat) < 65536 ∧ isOkE (emitLoad u32Ty 65536 0 0) = false :=
  ⟨by omega, emitLoad_rejects_large_bit_offsets.1 u32Ty 65536 0 0 (by omega)⟩

/-- C8: `FilterPacket::from_string_opt` rejects every translated program whose
instruction count exceeds `FILTER_MAX_INSNS` (here the `maxInsns` parameter,
since the constant comes from generated bindings), so every successfully
compiled packet filter has at most `maxInsns` instructions. -/
theorem fromStringOpt_length_bound :
    (∀ (maxInsns : Nat) (translate : Nat → String → Except String (List Nat))
       (fstring : String) (layer : FilterLayerCode) (insns : List Nat),
       fromStringOpt maxInsns translate fstring layer = .ok insns →
         insns.length ≤ maxInsns) ∧
    (∀ (maxInsns : Nat) (translate : Nat → String → Except String (List Nat))
       (fstring : String) (layer : FilterLayerCode) (lt : Nat) (prog : List Nat),
       linktypeOf layer = .ok lt → translate lt fstring = .ok prog →
       maxInsns < prog.length →
         isOkE (fromStringOpt maxInsns translate fstring layer) = false) := by
  constructor
  · intro maxInsns translate fstring layer insns h
    rcases hlt : linktypeOf layer with e | lt
    · simp only [fromStringOpt, hlt] at h
      exact absurd h (by simp)
    · simp only [fromStringOpt, hlt] at h
      rcases htr : translate lt fstring with e | prog
      · simp only [htr] at h
        exact absurd h (by simp)
      · simp only [htr] at h
        by_cases hlen : prog.length > maxInsns
        · rw [if_pos hlen] at h
          exact absurd h (by simp)
        · rw [if_neg hlen] at h
          cases h
          omega
  · intro maxInsns translate fstring layer lt prog hlt htr hlen
    simp only [fromStringOpt, hlt, htr, if_pos (show prog.length > maxInsns from hlen)]
    rfl

/-- Helper: the field loop of `from_string` only appends load entries, at most
one per intermediate field (none for the terminal). -/
theorem fromLoop_spec :
    ∀ (fields : List LhsNode) (ty : Ty) (offt so sbf mask : Nat) (acc : List MetaOp)
      (res : Ty × Nat × Nat × Nat × List MetaOp),
      fromLoop ty fields offt so sbf mask acc = .ok res →
      ∃ extra : List MetaOp, res.2.2.2.2 = acc ++ extra ∧
        (∀ op ∈ extra, op.isLoad = true) ∧
        (fields ≠ [] → extra.length + 1 ≤ fields.length) := by
  intro fields
  induction fields with
  | nil =>
    intro ty offt so sbf mask acc res h
    simp only [fromLoop] at h
    cases h
    exact ⟨[], by simp, by simp, by simp⟩
  | cons f rest ih =>
    intro ty offt so sbf mask acc res h
    cases rest with
    | nil =>
      simp only [fromLoop] at h
      rcases hw : walkBtfNode ty f.member offt with _ | ⟨offset, bfs, snode⟩
      · simp only [hw] at h
        exact absurd h (by simp)
      · simp only [hw] at h
        cases h
        exact ⟨[], by simp, by simp, by simp⟩
    | cons g rest' =>
      simp only [fromLoop] at h
      rcases hw : walkBtfNode ty f.member offt with _ | ⟨offset, bfs, snode⟩
      · simp only [hw] at h
        exact absurd h (by simp)
      · simp only [hw] at h
        rcases hn : nextWalkable snode with e | ⟨ind, x⟩
        · simp only [hn] at h
          exact absurd h (by simp)
        · simp only [hn] at h
          by_cases h1 : ind = 1
          · rw [if_pos h1] at h
            by_cases h2 : offset / 8 ≥ 65536
            · rw [if_pos h2] at h
              exact absurd h (by simp)
            · rw [if_neg h2] at h
              obtain ⟨extra, heq, hload, hlen⟩ := ih x 0 offset (updBf sbf bfs) mask _ res h
              refine ⟨.load { r_type := PTR_BIT, nmemb := 0, offt := offset / 8,
                              bf_size := 0, mask := f.mask } :: extra, ?_, ?_, ?_⟩
              · rw [heq]
                simp
              · intro op hop
                rcases List.mem_cons.mp hop with heq | hop
                · rw [heq]
                  rfl
                · exact hload op hop
              · intro _
                have := hlen (by simp)
                simp only [List.length_cons] at this ⊢
                omega
          · rw [if_neg h1] at h
            by_cases h2 : 1 < ind
            · rw [if_pos h2] at h
              exact absurd h (by simp)
            · rw [if_neg h2] at h
              by_cases h3 : f.mask ≠ 0
              · rw [if_pos h3] at h
                exact absurd h (by simp)
              · rw [if_neg h3] at h
                obtain ⟨extra, heq, hload, hlen⟩ := ih x offset offset (updBf sbf bfs) mask _ res h
                refine ⟨extra, heq, hload, fun _ => ?_⟩
                have := hlen (by simp)
                simp only [List.length_cons] at this ⊢
                omega

/-- C9: every program produced by `FilterMeta::from_string` has a `Target` as
entry 0 and a `Load` at every other position. -/
theorem fromString_target_then_loads :
    ∀ (env : String → Except String (List Ty)) (s : String) (ops : List MetaOp),
      fromString env s = .ok ops →
      (∃ t, ops.head? = some (.target t)) ∧ ∀ op ∈ ops.tail, op.isLoad = true := by
  intro env s ops h
  unfold fromString at h
  rcases hp : parseFilter s with e | ⟨nodes, op, rhs⟩
  · simp only [hp] at h
    exact absurd h (by simp)
  · simp only [hp] at h
    rcases nodes with _ | ⟨initNode, fields⟩
    · exact absurd h (by simp)
    · rcases he : env initNode.member with e | types
      · simp only [he] at h
        exact absurd h (by simp)
      · simp only [he] at h
        rcases hf : types.find? (fun t => match t with | .comp false _ _ => true | _ => false)
          with _ | ty0
        · simp only [hf] at h
          exact absurd h (by simp)
        · simp only [hf] at h
          rcases hl : fromLoop ty0 fields 0 0 0 0 [] with e | ⟨tyF, so, sbf, mask, lops⟩
          · simp only [hl] at h
            exact absurd h (by simp)
          · simp only [hl] at h
            rcases hel : emitLoad tyF so sbf mask with e | lmo
            · simp only [hel] at h
              exact absurd h (by simp)
            · simp only [hel] at h
              rcases hr : Rval.fromStr rhs with e | rval
              · simp only [hr] at h
                exact absurd h (by simp)
              · simp only [hr] at h
                rcases het : emitTarget lmo rval op with e | tgt
                · simp only [het] at h
                  exact absurd h (by simp)
                · simp only [het] at h
                  cases h
                  refine ⟨⟨tgt, rfl⟩, ?_⟩
                  intro o ho
                  rcases List.mem_append.mp ho with ho | ho
                  · obtain ⟨extra, heq, hload, _⟩ := fromLoop_spec fields ty0 0 0 0 0 [] _ hl
                    rw [show lops = [] ++ extra from heq, List.nil_append] at ho
                    exact hload o ho
                  · have : o = MetaOp.load lmo := List.mem_singleton.mp ho
                    rw [this]
                    rfl

/-- C9 witness: the two-entry program for `sk_buff.mark == 0xc0de` has a
target head and load tail. -/
theorem fromString_target_then_loads_witness :
    (∃ t, ([MetaOp.target { md := 222 :: 192 :: List.replicate 30 0, sz := 4, cmp := 0 },
            MetaOp.load { r_type := 3, nmemb := 0, offt := 168, bf_size := 0, mask := 0 }].head? =
        some (.target t))) ∧
    ∀ op ∈ ([MetaOp.target { md := 222 :: 192 :: List.replicate 30 0, sz := 4, cmp := 0 },
             MetaOp.load { r_type := 3, nmemb := 0, offt := 168, bf_size := 0, mask := 0 }] :
        List MetaOp).tail, op.isLoad = true :=
  fromString_target_then_loads skbEnv "sk_buff.mark == 0xc0de" _ (by rfl)

/-- C1 counterexample: `from_string` performs no `META_OPS_MAX` length check —
a 33-component expression over a 32-deep pointer chain compiles successfully
to 34 entries, exceeding `META_OPS_MAX = 32`. -/
theorem fromString_exceeds_META_OPS_MAX :
    (fromString chainEnv chainExpr).map List.length = .ok 34 ∧ META_OPS_MAX = 32 :=
  ⟨by rfl, rfl⟩

/-- C1 (amended): the only size bound `from_string` guarantees is structural —
a program never has more entries than dotted components plus one (one Target,
at most one Load per component); no `META_OPS_MAX` bound is enforced. -/
theorem fromString_length_linear :
    ∀ (env : String → Except String (List Ty)) (s : String) (nodes : List LhsNode)
      (cmp : MetaCmp) (rhs : List Char) (ops : List MetaOp),
      parseFilter s = .ok (nodes, cmp, rhs) → fromString env s = .ok ops →
      ops.length ≤ nodes.length + 1 := by
  intro env s nodes cmp rhs ops hp h
  unfold fromString at h
  simp only [hp] at h
  rcases nodes with _ | ⟨initNode, fields⟩
  · exact absurd h (by simp)
  · rcases he : env initNode.member with e | types
    · simp only [he] at h
      exact absurd h (by simp)
    · simp only [he] at h
      rcases hf : types.find? (fun t => match t with | .comp false _ _ => true | _ => false)
        with _ | ty0
      · simp only [hf] at h
        exact absurd h (by simp)
      · simp only [hf] at h
        rcases hl : fromLoop ty0 fields 0 0 0 0 [] with e | ⟨tyF, so, sbf, mask, lops⟩
        · simp only [hl] at h
          exact absurd h (by simp)
        · simp only [hl] at h
          rcases hel : emitLoad tyF so sbf mask with e | lmo
          · simp only [hel] at h
            exact absurd h (by simp)
          · simp only [hel] at h
            rcases hr : Rval.fromStr rhs with e | rval
            · simp only [hr] at h
              exact absurd h (by simp)
            · simp only [hr] at h
              rcases het : emitTarget lmo rval cmp with e | tgt
              · simp only [het] at h
                exact absurd h (by simp)
              · simp only [het] at h
                cases h
                obtain ⟨extra, heq, _, hlen⟩ := fromLoop_spec fields ty0 0 0 0 0 [] _ hl
                have heq' : lops = [] ++ extra := heq
                rcases fields with _ | ⟨f, rest⟩
                · simp only [fromLoop] at hl
                  cases hl
                  simp
                · have hb := hlen (by simp)
                  subst heq'
                  simp only [List.length_cons, List.length_append, List.nil_append,
                    List.length_singleton, List.length_nil] at *
                  omega

/-- C1 witness (for the amended bound): the bitfield filter compiles to 2
entries from 2 dotted components. -/
theorem fromString_length_linear_witness :
    ([MetaOp.target { md := 1 :: List.replicate 31 0, sz := 1, cmp := 5 },
      MetaOp.load { r_type := 1, nmemb := 0, offt := 1024, bf_size := 3, mask := 0 }] :
        List MetaOp).length ≤
      ([⟨"sk_buff", 0⟩, ⟨"pkt_type", 0⟩] : List LhsNode).length + 1 :=
  fromString_length_linear skbEnv "sk_buff.pkt_type != 1"
    [⟨"sk_buff", 0⟩, ⟨"pkt_type", 0⟩] .ne "1".toList _ (by rfl) (by rfl)

/-- Helper: `parseNodes` preserves the component count. -/
theorem parseNodes_length :
    ∀ (l : List (List Char)) (ns : List LhsNode), parseNodes l = .ok ns →
      ns.length = l.length := by
  intro l
  induction l with
  | nil =>
    intro ns h
    simp only [parseNodes] at h
    cases h
    rfl
  | cons c rest ih =>
    intro ns h
    simp only [parseNodes] at h
    rcases h1 : parseNode c with e | n
    · simp only [h1] at h
      exact absurd h (by simp)
    · simp only [h1] at h
      rcases h2 : parseNodes rest with e | ns'
      · simp only [h2] at h
        exact absurd h (by simp)
      · simp only [h2] at h
        cases h
        simp [ih ns' h2]

/-- Helper: shape of a successful `parse_filter`: the input splits into one or
three space-separated tokens, the lhs parses into ≥ 2 nodes whose first member
is `sk_buff`, and a 1-token filter desugars to `!= "0"`. -/
theorem parseFilter_ok_shape :
    ∀ (filter : String) (nodes : List LhsNode) (cmp : MetaCmp) (rhs : List Char),
      parseFilter filter = .ok (nodes, cmp, rhs) →
      ∃ lhsTok,
        ((splitOnChar ' ' filter.toList = [lhsTok] ∧ cmp = .ne ∧ rhs = "0".toList) ∨
          (∃ opTok, splitOnChar ' ' filter.toList = [lhsTok, opTok, rhs] ∧
            MetaCmp.fromStr (String.mk opTok) = .ok cmp)) ∧
        parseNodes (splitOnChar '.' lhsTok) = .ok nodes ∧ 2 ≤ nodes.length ∧
        nodes.head?.map LhsNode.member = some "sk_buff" := by
  intro filter nodes cmp rhs h
  have core : ∀ lhs op rhs',
      parseFilterCore lhs op rhs' = .ok (nodes, cmp, rhs) →
      parseNodes (splitOnChar '.' lhs) = .ok nodes ∧ 2 ≤ nodes.length ∧
        nodes.head?.map LhsNode.member = some "sk_buff" ∧
        MetaCmp.fromStr (String.mk op) = .ok cmp ∧ rhs' = rhs := by
    intro lhs op rhs' hc
    unfold parseFilterCore at hc
    rcases hpn : parseNodes (splitOnChar '.' lhs) with e | ns
    · simp only [hpn] at hc
      exact absurd hc (by simp)
    · simp only [hpn] at hc
      by_cases hbad : ns.length ≤ 1 ∨ (ns.headD ⟨"", 0⟩).member ≠ "sk_buff"
      · rw [if_pos hbad] at hc
        exact absurd hc (by simp)
      · rw [if_neg hbad] at hc
        push_neg at hbad
        obtain ⟨hlen, hmem⟩ := hbad
        rcases hop : MetaCmp.fromStr (String.mk op) with e | c
        · simp only [hop] at hc
          exact absurd hc (by simp)
        · simp only [hop] at hc
          rw [Except.ok.injEq, Prod.mk.injEq, Prod.mk.injEq] at hc
          obtain ⟨hns, hcmp, hrr⟩ := hc
          subst hns
          subst hcmp
          subst hrr
          refine ⟨rfl, by omega, ?_, rfl, rfl⟩
          rcases ns with _ | ⟨n0, t⟩
          · simp at hlen
          · simp only [List.headD_cons] at hmem
            simp [hmem]
  unfold parseFilter at h
  rcases hE : splitOnChar ' ' filter.toList with _ | ⟨a, _ | ⟨b, _ | ⟨c, _ | ⟨d, rest⟩⟩⟩⟩ <;>
    rw [hE] at h
  · exact absurd h (by simp)
  · obtain ⟨hpn, hlen, hhd, hop, hrhs⟩ := core a "!=".toList "0".toList h
    refine ⟨a, Or.inl ⟨rfl, ?_, hrhs.symm⟩, hpn, hlen, hhd⟩
    have hne : MetaCmp.fromStr (String.mk "!=".toList) = .ok .ne := rfl
    rw [hne] at hop
    cases hop
    rfl
  · exact absurd h (by simp)
  · obtain ⟨hpn, hlen, hhd, hop, hrhs⟩ := core a b c h
    exact ⟨a, Or.inr ⟨b, by rw [← hrhs], hop⟩, hpn, hlen, hhd⟩
  · exact absurd h (by simp)

/-- Helper: little-endian bytes of zero are all zero. -/
theorem natLEBytes_zero : ∀ k, natLEBytes 0 k = List.replicate k 0 := by
  intro k
  induction k with
  | zero => rfl
  | succ n ih =>
    simp only [natLEBytes, List.replicate, Nat.zero_mod, Nat.zero_div]
    rw [ih]

/-- Helper: a successful target emission against the literal `0` produced by
the 1-token desugaring has comparator `Ne` and an all-zero `md`. -/
theorem emitTarget_dec0_ne :
    ∀ (lmo : MetaLoad) (tgt : MetaTarget),
      emitTarget lmo (.dec ['0']) .ne = .ok tgt →
      tgt.cmp = MetaCmp.ne.toU8 ∧ tgt.md = List.replicate META_TARGET_MAX 0 := by
  intro lmo tgt h
  unfold emitTarget at h
  by_cases h1 : (lmo.is_ptr || decide (lmo.nmemb > 0)) = true
  · rw [if_pos h1] at h
    rw [if_neg (by simp)] at h
    cases h
  · rw [if_neg h1] at h
    by_cases h2 : lmo.is_num = true
    · rw [if_pos h2] at h
      have hlong : targetLong lmo (.dec ['0']) = .ok 0 := rfl
      simp only [hlong] at h
      rcases hsz : targetSz lmo with e | szv
      · simp only [hsz] at h
        exact absurd h (by simp)
      · simp only [hsz] at h
        cases h
        refine ⟨rfl, ?_⟩
        show natLEBytes 0 8 ++ List.replicate (META_TARGET_MAX - 8) 0 = _
        rw [natLEBytes_zero]
        rfl
    · rw [if_neg h2] at h
      cases h
      exact ⟨rfl, rfl⟩

/-- C5: a metadata filter splits on single spaces and is rejected unless this
yields 1 or 3 tokens; a successful parse has an lhs of ≥ 2 dotted components
starting with the literal `sk_buff`; and a 1-token filter desugars to `!= 0`,
so its emitted Target has `cmp = Ne` and an all-zero `md`. -/
theorem parseFilter_token_and_lhs_rules :
    (∀ (env : String → Except String (List Ty)) (s : String),
       (splitOnChar ' ' s.toList).length ≠ 1 → (splitOnChar ' ' s.toList).length ≠ 3 →
       isOkE (fromString env s) = false) ∧
    (∀ (filter : String) (nodes : List LhsNode) (cmp : MetaCmp) (rhs : List Char),
       parseFilter filter = .ok (nodes, cmp, rhs) →
       ∃ lhsTok,
         ((splitOnChar ' ' filter.toList = [lhsTok] ∧ cmp = .ne ∧ rhs = "0".toList) ∨
           (∃ opTok, splitOnChar ' ' filter.toList = [lhsTok, opTok, rhs])) ∧
         2 ≤ (splitOnChar '.' lhsTok).length ∧ 2 ≤ nodes.length ∧
         nodes.head?.map LhsNode.member = some "sk_buff") ∧
    (∀ (env : String → Except String (List Ty)) (s : String) (ops : List MetaOp),
       (splitOnChar ' ' s.toList).length = 1 → fromString env s = .ok ops →
       ∃ t rest, ops = .target t :: rest ∧ t.cmp = MetaCmp.ne.toU8 ∧
         t.md = List.replicate META_TARGET_MAX 0) := by
  refine ⟨?_, ?_, ?_⟩
  · intro env s h1 h3
    rcases hpf : parseFilter s with e | ⟨nodes, cmp, rhs⟩
    · unfold fromString
      simp only [hpf]
      rfl
    · obtain ⟨lhsTok, hTok, _⟩ := parseFilter_ok_shape s nodes cmp rhs hpf
      rcases hTok with ⟨hT, _⟩ | ⟨opTok, hT, _⟩
      · exact absurd (by rw [hT]; rfl) h1
      · exact absurd (by rw [hT]; rfl) h3
  · intro filter nodes cmp rhs h
    obtain ⟨lhsTok, hTok, hpn, hlen, hhd⟩ := parseFilter_ok_shape filter nodes cmp rhs h
    have hclen : (splitOnChar '.' lhsTok).length = nodes.length :=
      (parseNodes_length _ _ hpn).symm
    refine ⟨lhsTok, ?_, by omega, hlen, hhd⟩
    rcases hTok with ⟨hT, hc, hr⟩ | ⟨opTok, hT, _⟩
    · exact .inl ⟨hT, hc, hr⟩
    · exact .inr ⟨opTok, hT⟩
  · intro env s ops h1 h
    unfold fromString at h
    rcases hpf : parseFilter s with e | ⟨nodes, cmpv, rhs⟩
    · simp only [hpf] at h
      exact absurd h (by simp)
    · simp only [hpf] at h
      obtain ⟨lhsTok, hTok, _, hlen, _⟩ := parseFilter_ok_shape s nodes cmpv rhs hpf
      have hcr : cmpv = .ne ∧ rhs = "0".toList := by
        rcases hTok with ⟨_, hc, hr⟩ | ⟨opTok, hT, _⟩
        · exact ⟨hc, hr⟩
        · rw [hT] at h1
          exact absurd h1 (by simp)
      obtain ⟨hc, hr⟩ := hcr
      subst hc
      subst hr
      rcases nodes with _ | ⟨initNode, fields⟩
      · exact absurd h (by simp)
      · rcases he : env initNode.member with e | types
        · simp only [he] at h
          exact absurd h (by simp)
        · simp only [he] at h
          rcases hf : types.find? (fun t => match t with | .comp false _ _ => true | _ => false)
            with _ | ty0
          · simp only [hf] at h
            exact absurd h (by simp)
          · simp only [hf] at h
            rcases hl : fromLoop ty0 fields 0 0 0 0 [] with e | ⟨tyF, so, sbf, mask, lops⟩
            · simp only [hl] at h
              exact absurd h (by simp)
            · simp only [hl] at h
              rcases hel : emitLoad tyF so sbf mask with e | lmo
              · simp only [hel] at h
                exact absurd h (by simp)
              · simp only [hel] at h
                have hrv : Rval.fromStr "0".toList = .ok (.dec ['0']) := rfl
                simp only [hrv] at h
                rcases het : emitTarget lmo (.dec ['0']) .ne with e | tgt
                · simp only [het] at h
                  exact absurd h (by simp)
                · simp only [het] at h
                  cases h
                  obtain ⟨hcm, hmd⟩ := emitTarget_dec0_ne lmo tgt het
                  exact ⟨tgt, _, rfl, hcm, hmd⟩

/-- C5 witness: `"a b"` (2 tokens) is rejected; `"sk_buff.mark"` parses with a
2-component `sk_buff` lhs and desugars to a `Ne` target with zeroed `md`. -/
theorem parseFilter_token_and_lhs_rules_witness :
    isOkE (fromString skbEnv "a b") = false ∧
    (∃ lhsTok,
      ((splitOnChar ' ' "sk_buff.mark".toList = [lhsTok] ∧ MetaCmp.ne = MetaCmp.ne ∧
          "0".toList = "0".toList) ∨
        (∃ opTok, splitOnChar ' ' "sk_buff.mark".toList = [lhsTok, opTok, "0".toList])) ∧
      2 ≤ (splitOnChar '.' lhsTok).length ∧
      2 ≤ ([⟨"sk_buff", 0⟩, ⟨"mark", 0⟩] : List LhsNode).length ∧
      ([⟨"sk_buff", 0⟩, ⟨"mark", 0⟩] : List LhsNode).head?.map LhsNode.member =
        some "sk_buff") ∧
    (∃ t rest,
      ([MetaOp.target { md := List.replicate 32 0, sz := 4, cmp := 5 },
        MetaOp.load { r_type := 3, nmemb := 0, offt := 168, bf_size := 0, mask := 0 }] :
          List MetaOp) = .target t :: rest ∧
      t.cmp = MetaCmp.ne.toU8 ∧ t.md = List.replicate META_TARGET_MAX 0) :=
  ⟨parseFilter_token_and_lhs_rules.1 skbEnv "a b" (by decide) (by decide),
   parseFilter_token_and_lhs_rules.2.1 "sk_buff.mark" [⟨"sk_buff", 0⟩, ⟨"mark", 0⟩]
     .ne "0".toList (by rfl),
   parseFilter_token_and_lhs_rules.2.2 skbEnv "sk_buff.mark" _ (by decide) (by rfl)⟩

/-- C7: on a numeric terminal, a leading-`-` decimal rhs is rejected whenever
the terminal is unsigned; a non-negative decimal rhs is parsed as a full
`u64`, so a value wider than the terminal (like `u32::MAX + 1` on the 4-byte
`sk_buff.mark`) is accepted, stored as 8 little-endian bytes with `sz = 4`
(the comparison width). -/
theorem emitTarget_sign_and_width :
    (∀ (lmo : MetaLoad) (cs : List Char) (cmp : MetaCmp),
       lmo.is_ptr = false → lmo.nmemb = 0 → lmo.is_num = true → lmo.is_signed = false →
       isOkE (emitTarget lmo (.dec ('-' :: cs)) cmp) = false) ∧
    (∀ (lmo : MetaLoad) (cs : List Char) (v : Nat) (cmp : MetaCmp),
       lmo.is_ptr = false → lmo.nmemb = 0 → lmo.is_int = true →
       cs.head? ≠ some '-' → parseU64? cs = some v →
       emitTarget lmo (.dec cs) cmp =
         .ok { md := natLEBytes v 8 ++ List.replicate (META_TARGET_MAX - 8) 0,
               sz := 4, cmp := cmp.toU8 }) ∧
    (fromString skbEnv "sk_buff.mark == 4294967296" =
      .ok [.target { md := [0, 0, 0, 0, 1] ++ List.replicate 27 0, sz := 4, cmp := 0 },
           .load { r_type := 3, nmemb := 0, offt := 168, bf_size := 0, mask := 0 }] ∧
     (4294967296 : Nat) = 2 ^ 32 ∧
     isOkE (fromString skbEnv "sk_buff.mark == -1") = false) := by
  refine ⟨?_, ?_, by rfl, by rfl, by rfl⟩
  · intro lmo cs cmp hp hn hnum hsg
    unfold emitTarget
    rw [if_neg (by simp [hp, hn]), if_pos hnum]
    have hl : targetLong lmo (.dec ('-' :: cs)) =
        .error "invalid target value (value is signed while type is unsigned)" := by
      simp only [targetLong]
      rw [if_pos (by simp), if_pos (by simp [hsg])]
    rw [hl]
    rfl
  · intro lmo cs v cmp hp hn hint hhd hparse
    have hnum : lmo.is_num = true := by
      simp [MetaLoad.is_num, hint]
    unfold emitTarget
    rw [if_neg (by simp [hp, hn]), if_pos hnum]
    have hl : targetLong lmo (.dec cs) = .ok v := by
      simp only [targetLong]
      rw [if_neg hhd, hparse]
    rw [hl]
    have h31 : lmo.r_type &&& 0x1f = 3 := by
      have := hint
      simp only [MetaLoad.is_int, beq_iff_eq] at this
      exact this
    have hsz : targetSz lmo = .ok 4 := by
      unfold targetSz
      simp [MetaLoad.is_byte, MetaLoad.is_short, MetaLoad.is_int, MetaLoad.is_long, h31]
    rw [hsz]

/-- C7 witness: on the unsigned 4-byte `mark` load, `-1` is rejected and
`4294967296` is accepted with `sz = 4`. -/
theorem emitTarget_sign_and_width_witness :
    isOkE (emitTarget { r_type := 3, nmemb := 0, offt := 168, bf_size := 0, mask := 0 }
      (.dec ['-', '1']) .eq) = false ∧
    emitTarget { r_type := 3, nmemb := 0, offt := 168, bf_size := 0, mask := 0 }
      (.dec ['1']) .eq =
      .ok { md := natLEBytes 1 8 ++ List.replicate (META_TARGET_MAX - 8) 0,
            sz := 4, cmp := MetaCmp.eq.toU8 } :=
  ⟨emitTarget_sign_and_width.1 { r_type := 3, nmemb := 0, offt := 168, bf_size := 0, mask := 0 }
     ['1'] .eq (by decide) (by decide) (by decide) (by decide),
   emitTarget_sign_and_width.2.1 { r_type := 3, nmemb := 0, offt := 168, bf_size := 0, mask := 0 }
     ['1'] 1 .eq (by decide) (by decide) (by decide) (by decide) (by decide)⟩

/-- Helper: `unmarshal_stackid` never touches the probe type. -/
theorem unmarshalStackid_probe_type :
    ∀ (stk : Int → Option (List Nat)) (near : Nat → Option (String × Nat))
      (ev : KernelEvent) (sid : Int),
      (unmarshalStackid stk near ev sid).probe_type = ev.probe_type := by
  intro stk near ev sid
  unfold unmarshalStackid
  split
  · rfl
  · rfl

/-- Helper: the stack-trace field after `unmarshal_stackid`. -/
theorem unmarshalStackid_stack_trace :
    ∀ (stk : Int → Option (List Nat)) (near : Nat → Option (String × Nat))
      (ev : KernelEvent) (sid : Int),
      (unmarshalStackid stk near ev sid).stack_trace =
        if 0 ≤ sid then
          some (match stk sid with
            | some bytes => stackFrames near (u64Chunks bytes)
            | none => [])
        else ev.stack_trace := by
  intro stk near ev sid
  unfold unmarshalStackid
  split
  · rfl
  · rfl

/-- C4: `from_raw` fails exactly on: section count ≠ 1, data type ≠ 1, payload
size ≠ 17, unresolvable address, or probe byte ∉ {0, 1, 2}; on success byte 8
maps to `"kprobe"`/`"kretprobe"`/`"raw_tracepoint"`. -/
theorem kernelFromRaw_error_conditions :
    ∀ (res : Nat → Option String) (stk : Int → Option (List Nat))
      (near : Nat → Option (String × Nat)) (secs : List BpfRawSection),
      (isOkE (kernelFromRaw res stk near secs) = false ↔ kernelErrCond res secs) ∧
      (∀ raw ev, secs = [raw] → kernelFromRaw res stk near secs = .ok ev →
        ev.probe_type = probeTypeStr (byte8 raw.data)) := by
  intro res stk near secs
  rcases secs with _ | ⟨raw, _ | ⟨raw2, rest⟩⟩
  · refine ⟨by simp [kernelFromRaw, kernelErrCond, isOkE], ?_⟩
    intro raw ev hs
    simp at hs
  · constructor
    · by_cases h1 : raw.data_type = 1
      · by_cases h2 : raw.data.length = 17
        · rcases hr : res (leU64 (raw.data.take 8)) with _ | name
          · simp [kernelFromRaw, kernelErrCond, isOkE, h1, h2, hr]
          · by_cases hb0 : byte8 raw.data = 0
            · simp [kernelFromRaw, kernelErrCond, isOkE, h1, h2, hr, hb0]
            · by_cases hb1 : byte8 raw.data = 1
              · simp [kernelFromRaw, kernelErrCond, isOkE, h1, h2, hr, hb0, hb1]
              · by_cases hb2 : byte8 raw.data = 2
                · simp [kernelFromRaw, kernelErrCond, isOkE, h1, h2, hr, hb0, hb1, hb2]
                · have hgt : 2 < byte8 raw.data := by omega
                  simp [kernelFromRaw, kernelErrCond, isOkE, h1, h2, hr, hb0, hb1, hb2, hgt]
        · simp [kernelFromRaw, kernelErrCond, isOkE, h1, h2]
      · simp [kernelFromRaw, kernelErrCond, isOkE, h1]
    · intro raw' ev hs hok
      have hr' : raw = raw' := by injection hs
      subst hr'
      simp only [kernelFromRaw] at hok
      by_cases h1 : raw.data_type = 1
      · rw [if_neg (by simp [h1])] at hok
        by_cases h2 : raw.data.length = 17
        · rw [if_neg (by simp [h2])] at hok
          rcases hr : res (leU64 (raw.data.take 8)) with _ | name
          · simp only [hr] at hok
            exact absurd hok (by simp)
          · simp only [hr] at hok
            by_cases hb0 : byte8 raw.data = 0
            · rw [if_pos hb0] at hok
              cases hok
              rw [unmarshalStackid_probe_type]
              simp [probeTypeStr, hb0]
            · rw [if_neg hb0] at hok
              by_cases hb1 : byte8 raw.data = 1
              · rw [if_pos hb1] at hok
                cases hok
                rw [unmarshalStackid_probe_type]
                simp [probeTypeStr, hb0, hb1]
              · rw [if_neg hb1] at hok
                by_cases hb2 : byte8 raw.data = 2
                · rw [if_pos hb2] at hok
                  cases hok
                  rw [unmarshalStackid_probe_type]
                  simp [probeTypeStr, hb0, hb1, hb2]
                · rw [if_neg hb2] at hok
                  exact absurd hok (by simp)
        · rw [if_pos (by simp [h2])] at hok
          exact absurd hok (by simp)
      · rw [if_pos (by simp [h1])] at hok
        exact absurd hok (by simp)
  · refine ⟨by simp [kernelFromRaw, kernelErrCond, isOkE], ?_⟩
    intro raw' ev hs
    simp at hs

/-- C4 witness: a well-formed kretprobe section decodes with probe type
`"kretprobe"`. -/
theorem kernelFromRaw_error_conditions_witness :
    KernelEvent.probe_type
        { symbol := "kfree_skb", probe_type := "kretprobe",
          stack_trace := some (stackFrames noNear [5]) } =
      probeTypeStr (byte8 (⟨1, plainKretData⟩ : BpfRawSection).data) :=
  (kernelFromRaw_error_conditions oneSymRes fullStackMap noNear
      [⟨1, plainKretData⟩]).2 ⟨1, plainKretData⟩
    { symbol := "kfree_skb", probe_type := "kretprobe",
      stack_trace := some (stackFrames noNear [5]) } rfl (by rfl)

/-- C2 counterexample: the stack-id bit pattern `0x80000000` is a
non-negative `i64`, yet the decoded event carries no stack trace (and the
populated stack map is never consulted), because the source truncates the id
with `as i32` before the sign test. -/
theorem kernelFromRaw_stackid_not_i64 :
    0 ≤ asI64 (stackIdBits stackIdBoundaryData) ∧
    asI32 (stackIdBits stackIdBoundaryData) < 0 ∧
    kernelFromRaw oneSymRes fullStackMap noNear [⟨1, stackIdBoundaryData⟩] =
      .ok { symbol := "kfree_skb", probe_type := "kprobe", stack_trace := none } :=
  ⟨by decide, by decide, by rfl⟩

/-- C2 (amended): bytes 9..17 are read as a 64-bit value but truncated to
`i32` (`as i32`) before the sign test: the stack lookup happens — and the
event carries a (possibly empty) stack trace — exactly when the truncated
32-bit id is non-negative; negative truncated ids leave the trace absent
without failing. -/
theorem kernelFromRaw_stack_trace_iff_i32 :
    ∀ (res : Nat → Option String) (stk : Int → Option (List Nat))
      (near : Nat → Option (String × Nat)) (raw : BpfRawSection) (ev : KernelEvent),
      kernelFromRaw res stk near [raw] = .ok ev →
      ((ev.stack_trace ≠ none ↔ 0 ≤ asI32 (stackIdBits raw.data)) ∧
       (0 ≤ asI32 (stackIdBits raw.data) →
         ev.stack_trace = some
           (match stk (asI32 (stackIdBits raw.data)) with
            | some bytes => stackFrames near (u64Chunks bytes)
            | none => []))) := by
  intro res stk near raw ev hok
  simp only [kernelFromRaw] at hok
  by_cases h1 : raw.data_type = 1
  · rw [if_neg (by simp [h1])] at hok
    by_cases h2 : raw.data.length = 17
    · rw [if_neg (by simp [h2])] at hok
      rcases hr : res (leU64 (raw.data.take 8)) with _ | name
      · simp only [hr] at hok
        exact absurd hok (by simp)
      · simp only [hr] at hok
        rcases hpt : (if byte8 raw.data = 0 then .ok "kprobe"
            else if byte8 raw.data = 1 then .ok "kretprobe"
            else if byte8 raw.data = 2 then .ok "raw_tracepoint"
            else .error "Unknown probe type" : Except String String) with e | pt
        · simp only [hpt] at hok
          exact absurd hok (by simp)
        · simp only [hpt] at hok
          cases hok
          rw [unmarshalStackid_stack_trace]
          by_cases hs : 0 ≤ asI32 (stackIdBits raw.data)
          · rw [if_pos hs]
            exact ⟨by simp [hs], fun _ => rfl⟩
          · rw [if_neg hs]
            exact ⟨by simp [hs], fun hc => absurd hc hs⟩
    · rw [if_pos (by simp [h2])] at hok
      exact absurd hok (by simp)
  · rw [if_pos (by simp [h1])] at hok
    exact absurd hok (by simp)

/-- C2 witness: for stack id 3 the decoded event carries the looked-up
trace. -/
theorem kernelFromRaw_stack_trace_iff_i32_witness :
    ((some (stackFrames noNear [5]) : Option (List String)) ≠ none ↔
      0 ≤ asI32 (stackIdBits plainKretData)) ∧
    (0 ≤ asI32 (stackIdBits plainKretData) →
      (some (stackFrames noNear [5]) : Option (List String)) = some
        (match fullStackMap (asI32 (stackIdBits plainKretData)) with
         | some bytes => stackFrames noNear (u64Chunks bytes)
         | none => [])) :=
  kernelFromRaw_stack_trace_iff_i32 oneSymRes fullStackMap noNear ⟨1, plainKretData⟩
    { symbol := "kfree_skb", probe_type := "kretprobe",
      stack_trace := some (stackFrames noNear [5]) } (by rfl)

/-- Helper: the int-size dispatch never writes the mask field. -/
theorem intSized_mask :
    ∀ (l : MetaLoad) (size : Nat) (l' : MetaLoad),
      intSized l size = .ok l' → l'.mask = l.mask := by
  intro l size l' h
  unfold intSized at h
  repeat' split at h
  all_goals (cases h <;> rfl)

/-- Helper: one `emit_load` chain step never writes the mask field. -/
theorem emitNode_mask :
    ∀ (t : Ty) (l l' : MetaLoad), emitNode t l = .ok l' → l'.mask = l.mask := by
  intro t l l' h
  cases t with
  | void => exact absurd h (by simp [emitNode])
  | comp u n ms => exact absurd h (by simp [emitNode])
  | mnil => exact absurd h (by simp [emitNode])
  | mconsR n b bf ty rest => exact absurd h (by simp [emitNode])
  | mconsU n b bf rest => exact absurd h (by simp [emitNode])
  | other n => exact absurd h (by simp [emitNode])
  | typedef t =>
    simp only [emitNode] at h
    cases h
    rfl
  | volatile t =>
    simp only [emitNode] at h
    cases h
    rfl
  | cnst t =>
    simp only [emitNode] at h
    cases h
    rfl
  | restrict t =>
    simp only [emitNode] at h
    cases h
    rfl
  | declTag t =>
    simp only [emitNode] at h
    cases h
    rfl
  | typeTag t =>
    simp only [emitNode] at h
    cases h
    rfl
  | ptr t =>
    simp only [emitNode] at h
    unfold bailOnPtr at h
    split at h
    · exact absurd h (by simp)
    · cases h
      rfl
  | arr n t =>
    simp only [emitNode] at h
    unfold bailOnPtr at h
    split at h
    · exact absurd h (by simp)
    · split at h
      · cases h
        rfl
      · exact absurd h (by simp)
  | enum sg =>
    simp only [emitNode] at h
    unfold bailOnPtr at h
    split at h
    · exact absurd h (by simp)
    · cases h
      rfl
  | enum64 sg =>
    simp only [emitNode] at h
    unfold bailOnPtr at h
    split at h
    · exact absurd h (by simp)
    · cases h
      rfl
  | int sz sg =>
    simp only [emitNode] at h
    rcases hs : intSized (if sg = true then { l with r_type := l.r_type ||| SIGN_BIT } else l)
        sz with e | l2
    · simp only [hs] at h
      exact absurd h (by simp)
    · simp only [hs] at h
      have hm2 : l2.mask = l.mask := by
        rw [intSized_mask _ _ _ hs]
        cases sg <;> rfl
      split at h
      · unfold bailOnArr bailOnPtr at h
        repeat' split at h
        all_goals (cases h <;> exact hm2)
      · cases h
        exact hm2

/-- Helper: the `emit_load` loop never writes the mask field. -/
theorem emitLoop_mask :
    ∀ (t : Ty) (l l' : MetaLoad), emitLoop t l = .ok l' → l'.mask = l.mask := by
  intro t
  induction t with
  | ptr t ih =>
    intro l l' h
    rw [emitLoop.eq_def] at h
    rcases he : emitNode (.ptr t) l with e | l''
    · simp only [he] at h
      exact absurd h (by simp)
    · simp only [he] at h
      rw [ih l'' l' h, emitNode_mask _ _ _ he]
  | arr n t ih =>
    intro l l' h
    rw [emitLoop.eq_def] at h
    rcases he : emitNode (.arr n t) l with e | l''
    · simp only [he] at h
      exact absurd h (by simp)
    · simp only [he] at h
      rw [ih l'' l' h, emitNode_mask _ _ _ he]
  | typedef t ih =>
    intro l l' h
    rw [emitLoop.eq_def] at h
    rcases he : emitNode (.typedef t) l with e | l''
    · simp only [he] at h
      exact absurd h (by simp)
    · simp only [he] at h
      rw [ih l'' l' h, emitNode_mask _ _ _ he]
  | volatile t ih =>
    intro l l' h
    rw [emitLoop.eq_def] at h
    rcases he : emitNode (.volatile t) l with e | l''
    · simp only [he] at h
      exact absurd h (by simp)
    · simp only [he] at h
      rw [ih l'' l' h, emitNode_mask _ _ _ he]
  | cnst t ih =>
    intro l l' h
    rw [emitLoop.eq_def] at h
    rcases he : emitNode (.cnst t) l with e | l''
    · simp only [he] at h
      exact absurd h (by simp)
    · simp only [he] at h
      rw [ih l'' l' h, emitNode_mask _ _ _ he]
  | restrict t ih =>
    intro l l' h
    rw [emitLoop.eq_def] at h
    rcases he : emitNode (.restrict t) l with e | l''
    · simp only [he] at h
      exact absurd h (by simp)
    · simp only [he] at h
      rw [ih l'' l' h, emitNode_mask _ _ _ he]
  | declTag t ih =>
    intro l l' h
    rw [emitLoop.eq_def] at h
    rcases he : emitNode (.declTag t) l with e | l''
    · simp only [he] at h
      exact absurd h (by simp)
    · simp only [he] at h
      rw [ih l'' l' h, emitNode_mask _ _ _ he]
  | typeTag t ih =>
    intro l l' h
    rw [emitLoop.eq_def] at h
    rcases he : emitNode (.typeTag t) l with e | l''
    · simp only [he] at h
      exact absurd h (by simp)
    · simp only [he] at h
      rw [ih l'' l' h, emitNode_mask _ _ _ he]
  | void =>
    intro l l' h
    rw [emitLoop.eq_def] at h
    rcases he : emitNode .void l with e | l''
    · simp only [he] at h
      exact absurd h (by simp)
    · simp only [he] at h
      cases h
      exact emitNode_mask _ _ _ he
  | int sz sg =>
    intro l l' h
    rw [emitLoop.eq_def] at h
    rcases he : emitNode (.int sz sg) l with e | l''
    · simp only [he] at h
      exact absurd h (by simp)
    · simp only [he] at h
      cases h
      exact emitNode_mask _ _ _ he
  | enum sg =>
    intro l l' h
    rw [emitLoop.eq_def] at h
    rcases he : emitNode (.enum sg) l with e | l''
    · simp only [he] at h
      exact absurd h (by simp)
    · simp only [he] at h
      cases h
      exact emitNode_mask _ _ _ he
  | enum64 sg =>
    intro l l' h
    rw [emitLoop.eq_def] at h
    rcases he : emitNode (.enum64 sg) l with e | l''
    · simp only [he] at h
      exact absurd h (by simp)
    · simp only [he] at h
      cases h
      exact emitNode_mask _ _ _ he
  | comp u n ms _ =>
    intro l l' h
    rw [emitLoop.eq_def] at h
    rcases he : emitNode (.comp u n ms) l with e | l''
    · simp only [he] at h
      exact absurd h (by simp)
    · simp only [he] at h
      cases h
      exact emitNode_mask _ _ _ he
  | mnil =>
    intro l l' h
    rw [emitLoop.eq_def] at h
    rcases he : emitNode .mnil l with e | l''
    · simp only [he] at h
      exact absurd h (by simp)
    · simp only [he] at h
      cases h
      exact emitNode_mask _ _ _ he
  | mconsR n b bf ty rest _ _ =>
    intro l l' h
    rw [emitLoop.eq_def] at h
    rcases he : emitNode (.mconsR n b bf ty rest) l with e | l''
    · simp only [he] at h
      exact absurd h (by simp)
    · simp only [he] at h
      cases h
      exact emitNode_mask _ _ _ he
  | mconsU n b bf rest _ =>
    intro l l' h
    rw [emitLoop.eq_def] at h
    rcases he : emitNode (.mconsU n b bf rest) l with e | l''
    · simp only [he] at h
      exact absurd h (by simp)
    · simp only [he] at h
      cases h
      exact emitNode_mask _ _ _ he
  | other n =>
    intro l l' h
    rw [emitLoop.eq_def] at h
    rcases he : emitNode (.other n) l with e | l''
    · simp only [he] at h
      exact absurd h (by simp)
    · simp only [he] at h
      cases h
      exact emitNode_mask _ _ _ he

/-- Helper: a terminal load emitted with a non-zero mask passed the pointer /
unsigned-numeric guard of `emit_load`. -/
theorem emitLoad_mask_guard :
    ∀ (t : Ty) (offt bfs mask : Nat) (lmo : MetaLoad),
      emitLoad t offt bfs mask = .ok lmo → lmo.mask ≠ 0 →
      (lmo.is_ptr || (lmo.is_num && !lmo.is_signed)) = true := by
  intro t offt bfs mask lmo h hmask
  unfold emitLoad at h
  split at h
  · exact absurd h (by simp)
  · rcases hl : emitLoop t {} with e | lop
    · simp only [hl] at h
      exact absurd h (by simp)
    · simp only [hl] at h
      rcases hm : emitLoadMask lop mask with e | lop2
      · simp only [hm] at h
        exact absurd h (by simp)
      · simp only [hm] at h
        unfold emitLoadFinish at h
        split at h
        · exact absurd h (by simp)
        · split at h
          · exact absurd h (by simp)
          · cases h
            unfold emitLoadMask at hm
            split at hm
            · split at hm
              · cases hm
                simpa [MetaLoad.is_ptr, MetaLoad.is_num, MetaLoad.is_byte,
                  MetaLoad.is_short, MetaLoad.is_int, MetaLoad.is_long,
                  MetaLoad.is_signed] using (by assumption :
                    (lop.is_ptr || (lop.is_num && !lop.is_signed)) = true)
              · exact absurd hm (by simp)
            · cases hm
              have hz : lop.mask = 0 := by
                rw [emitLoop_mask _ _ _ hl]
              exact absurd hz (by simpa using hmask)

/-- Helper: the field loop only appends pointer loads. -/
theorem fromLoop_mask :
    ∀ (fields : List LhsNode) (ty : Ty) (offt so sbf mask : Nat) (acc : List MetaOp)
      (res : Ty × Nat × Nat × Nat × List MetaOp),
      fromLoop ty fields offt so sbf mask acc = .ok res →
      ∀ l : MetaLoad, MetaOp.load l ∈ res.2.2.2.2 →
        MetaOp.load l ∈ acc ∨ l.is_ptr = true := by
  intro fields
  induction fields with
  | nil =>
    intro ty offt so sbf mask acc res h l hl
    simp only [fromLoop] at h
    cases h
    exact .inl hl
  | cons f rest ih =>
    intro ty offt so sbf mask acc res h l hl
    cases rest with
    | nil =>
      simp only [fromLoop] at h
      rcases hw : walkBtfNode ty f.member offt with _ | ⟨offset, bfs, snode⟩
      · simp only [hw] at h
        exact absurd h (by simp)
      · simp only [hw] at h
        cases h
        exact .inl hl
    | cons g rest' =>
      simp only [fromLoop] at h
      rcases hw : walkBtfNode ty f.member offt with _ | ⟨offset, bfs, snode⟩
      · simp only [hw] at h
        exact absurd h (by simp)
      · simp only [hw] at h
        rcases hn : nextWalkable snode with e | ⟨ind, x⟩
        · simp only [hn] at h
          exact absurd h (by simp)
        · simp only [hn] at h
          by_cases h1 : ind = 1
          · rw [if_pos h1] at h
            by_cases h2 : offset / 8 ≥ 65536
            · rw [if_pos h2] at h
              exact absurd h (by simp)
            · rw [if_neg h2] at h
              rcases ih x 0 offset (updBf sbf bfs) mask _ res h l hl with hin | hptr
              · rcases List.mem_append.mp hin with hin | hin
                · exact .inl hin
                · refine .inr ?_
                  have hlv : l = ⟨PTR_BIT, 0, offset / 8, 0, f.mask⟩ := by
                    cases List.mem_singleton.mp hin
                    rfl
                  rw [hlv]
                  simp [MetaLoad.is_ptr, PTR_BIT]
              · exact .inr hptr
          · rw [if_neg h1] at h
            by_cases h2 : 1 < ind
            · rw [if_pos h2] at h
              exact absurd h (by simp)
            · rw [if_neg h2] at h
              by_cases h3 : f.mask ≠ 0
              · rw [if_pos h3] at h
                exact absurd h (by simp)
              · rw [if_neg h3] at h
                exact ih x offset offset (updBf sbf bfs) mask _ res h l hl

/-- C6 counterexample: a non-zero mask on the unsigned char-array (string)
terminal `sk_buff.dev.name` is accepted — the program compiles with
`mask = 0xff` on a load that is not a pointer (`nmemb = 16` marks the byte
array compared as a string). -/
theorem fromString_mask_on_string_accepted :
    fromString skbEnv "sk_buff.dev.name:0xff == 'dummy0'" =
      .ok [.target { md := [100, 117, 109, 109, 121, 48] ++ List.replicate 26 0,
                     sz := 6, cmp := 0 },
           .load { r_type := 64, nmemb := 0, offt := 16, bf_size := 0, mask := 0 },
           .load { r_type := 1, nmemb := 16, offt := 0, bf_size := 0, mask := 255 }] ∧
    MetaLoad.is_ptr { r_type := 1, nmemb := 16, offt := 0, bf_size := 0, mask := 255 } =
      false :=
  ⟨by rfl, by rfl⟩

/-- C6 (amended): in every compiled program a non-zero mask only appears on
loads that are pointers or unsigned numerics under the code's classification —
which counts unsigned char arrays (strings) as unsigned numeric, so a mask on
a string terminal is accepted; a non-zero mask still fails on any load that is
neither (e.g. a signed terminal), and a non-zero mask on a non-pointer
intermediate member makes the walk loop fail with the dedicated error —
shown both for every loop state reaching such a member and end-to-end on
`sk_buff.headers:0xff.skb_iif`, whose `headers` member is a non-pointer
(struct) intermediate. -/
theorem fromString_mask_only_ptr_or_unsigned :
    (∀ (env : String → Except String (List Ty)) (s : String) (ops : List MetaOp),
       fromString env s = .ok ops →
       ∀ l : MetaLoad, MetaOp.load l ∈ ops → l.mask ≠ 0 →
         (l.is_ptr || (l.is_num && !l.is_signed)) = true) ∧
    (∀ (t : Ty) (offt bfs mask : Nat) (lop : MetaLoad),
       0 < mask → emitLoop t {} = .ok lop →
       (lop.is_ptr || (lop.is_num && !lop.is_signed)) = false →
       isOkE (emitLoad t offt bfs mask) = false) ∧
    (∀ (ty : Ty) (f g : LhsNode) (rest : List LhsNode) (offt so sbf mask : Nat)
       (ops : List MetaOp) (offset : Nat) (bfs : Option Nat) (snode x : Ty),
       walkBtfNode ty f.member offt = some (offset, bfs, snode) →
       nextWalkable snode = .ok (0, x) →
       f.mask ≠ 0 →
       fromLoop ty (f :: g :: rest) offt so sbf mask ops =
         .error "mask for non-ptr intermediate members is not supported") ∧
    fromString skbEnv "sk_buff.headers:0xff.skb_iif == 1" =
      .error "mask for non-ptr intermediate members is not supported" := by
  refine ⟨?_, ?_, ?_, by rfl⟩
  · intro env s ops h l hl hmask
    unfold fromString at h
    rcases hp : parseFilter s with e | ⟨nodes, op, rhs⟩
    · simp only [hp] at h
      exact absurd h (by simp)
    · simp only [hp] at h
      rcases nodes with _ | ⟨initNode, fields⟩
      · exact absurd h (by simp)
      · rcases he : env initNode.member with e | types
        · simp only [he] at h
          exact absurd h (by simp)
        · simp only [he] at h
          rcases hf : types.find? (fun t => match t with | .comp false _ _ => true | _ => false)
            with _ | ty0
          · simp only [hf] at h
            exact absurd h (by simp)
          · simp only [hf] at h
            rcases hfl : fromLoop ty0 fields 0 0 0 0 [] with e | ⟨tyF, so, sbf, mask, lops⟩
            · simp only [hfl] at h
              exact absurd h (by simp)
            · simp only [hfl] at h
              rcases hel : emitLoad tyF so sbf mask with e | lmo
              · simp only [hel] at h
                exact absurd h (by simp)
              · simp only [hel] at h
                rcases hr : Rval.fromStr rhs with e | rval
                · simp only [hr] at h
                  exact absurd h (by simp)
                · simp only [hr] at h
                  rcases het : emitTarget lmo rval op with e | tgt
                  · simp only [het] at h
                    exact absurd h (by simp)
                  · simp only [het] at h
                    cases h
                    rcases List.mem_cons.mp hl with heq | hl
                    · cases heq
                    · rcases List.mem_append.mp hl with hl | hl
                      · rcases fromLoop_mask fields ty0 0 0 0 0 [] _ hfl l hl with hin | hptr
                        · cases hin
                        · rw [hptr]
                          rfl
                      · have : l = lmo := by
                          cases List.mem_singleton.mp hl
                          rfl
                        subst this
                        exact emitLoad_mask_guard tyF so sbf mask l hel hmask
  · intro t offt bfs mask lop hmask hloop hguard
    unfold emitLoad
    split
    · rfl
    · simp only [hloop]
      have hm : emitLoadMask lop mask =
          .error "mask is only supported for pointers and unsigned numeric members." := by
        unfold emitLoadMask
        rw [if_pos hmask, if_neg (by simp [hguard])]
      simp only [hm]
      rfl
  · intro ty f g rest offt so sbf mask ops offset bfs snode x hwalk hnext hmask
    simp only [fromLoop, hwalk, hnext]
    rw [if_neg (by norm_num), if_neg (by norm_num), if_pos hmask]

/-- C6 witness (for the amended claim): the compiled `sk_buff.mark:0xff`
program carries mask 255 on an unsigned `u32` load, a mask on a signed
`int` terminal is rejected, and a mask on the non-pointer intermediate
`headers` member of the concrete `sk_buff` fragment makes the walk loop
fail. -/
theorem fromString_mask_only_ptr_or_unsigned_witness :
    (MetaLoad.is_ptr { r_type := 3, nmemb := 0, offt := 168, bf_size := 0, mask := 255 } ||
      (MetaLoad.is_num { r_type := 3, nmemb := 0, offt := 168, bf_size := 0, mask := 255 } &&
       !MetaLoad.is_signed { r_type := 3, nmemb := 0, offt := 168, bf_size := 0, mask := 255 })) =
      true ∧
    isOkE (emitLoad (.int 4 true) 0 0 1) = false ∧
    fromLoop skbTy [⟨"headers", 255⟩, ⟨"skb_iif", 0⟩] 0 0 0 0 [] =
      .error "mask for non-ptr intermediate members is not supported" :=
  ⟨fromString_mask_only_ptr_or_unsigned.1 skbEnv "sk_buff.mark:0xff"
     [.target { md := List.replicate 32 0, sz := 4, cmp := 5 },
      .load { r_type := 3, nmemb := 0, offt := 168, bf_size := 0, mask := 255 }] (by rfl)
     { r_type := 3, nmemb := 0, offt := 168, bf_size := 0, mask := 255 } (by simp)
     (by decide),
   fromString_mask_only_ptr_or_unsigned.2.1 (.int 4 true) 0 0 1
     { r_type := 131, nmemb := 0, offt := 0, bf_size := 0, mask := 0 } (by decide) (by rfl)
     (by decide),
   fromString_mask_only_ptr_or_unsigned.2.2.1 skbTy ⟨"headers", 255⟩ ⟨"skb_iif", 0⟩ []
     0 0 0 0 [] 1472 none
     (.comp false "headers" (.mconsR "skb_iif" 0 none (.int 4 true) .mnil))
     (.comp false "headers" (.mconsR "skb_iif" 0 none (.int 4 true) .mnil))
     (by rfl) (by rfl) (by decide)⟩

/-- Helper: reading back an in-range unsigned number. -/
theorem asNatLt_coe {b n : Nat} (h : n < b) :
    Json.asNatLt b (.num (n : Int)) = some n := by
  simp only [Json.asNatLt]
  rw [if_pos ⟨Int.natCast_nonneg n, by simpa using h⟩]
  simp

/-- Helper: reading back an in-range `i32`. -/
theorem asInt32_in {n : Int} (h1 : -(2 ^ 31) ≤ n) (h2 : n < 2 ^ 31) :
    Json.asInt32 (.num n) = some n := by
  simp only [Json.asInt32]
  rw [if_pos ⟨h1, h2⟩]

/-- Helper: the NAT-direction field round-trips. -/
theorem parseDir_round (d : Option NatDirection) :
    parseDir (some (natDirJson d)) = some d := by
  rcases d with _ | ⟨⟩ | ⟨⟩ <;> rfl

/-- Helper: optional strings round-trip. -/
theorem parseOptStr_round (s : Option String) :
    parseOptStr (some (optStrJson s)) = some s := by
  rcases s with _ | s <;> rfl

/-- Helper: optional bounded numbers round-trip. -/
theorem parseOptNatLt_round (b : Nat) (p : Option Nat) (h : ∀ x ∈ p, x < b) :
    parseOptNatLt b (some (optNumJson p)) = some p := by
  rcases p with _ | x
  · rfl
  · have hx : x < b := h x rfl
    simp only [optNumJson, parseOptNatLt, asNatLt_coe hx]
    rfl

/-- Helper: the conntrack NAT object round-trips. -/
theorem ctNatFromJson_round (n : OvsActionCtNat) (h : n.wf) :
    ctNatFromJson (ctNatToJson n) = some n := by
  obtain ⟨h1, h2⟩ := h
  rcases n with ⟨dir, min_addr, max_addr, min_port, max_port⟩
  simp [ctNatToJson, ctNatFromJson, jGet, parseDir_round, parseOptStr_round,
    parseOptNatLt_round _ _ (by simpa using h1), parseOptNatLt_round _ _ (by simpa using h2)]

/-- Helper: a serialized NAT object is parsed back (it is never `null`). -/
theorem parseOptCtNat_some (n : OvsActionCtNat) (h : n.wf) :
    parseOptCtNat (some (ctNatToJson n)) = some (some n) := by
  have hr := ctNatFromJson_round n h
  rcases n with ⟨dir, mi, ma, mp, mq⟩
  simp only [ctNatToJson] at hr ⊢
  simp only [parseOptCtNat, hr]
  rfl

/-- C3 counterexample: `op_type = 2` is a value of the defined
`flow_operation` variant (a valid `u8`), but `to_json` fails on it, so the
JSON round trip does not hold for every value of every defined variant. -/
theorem ovsToJson_unknown_op_fails :
    OvsEvent.wf (.operation ⟨2, 0, 0, 0⟩) ∧
    ovsToJson (.operation ⟨2, 0, 0, 0⟩) = .error "Unknown operation type 2" :=
  ⟨by norm_num [OvsEvent.wf, OperationEvent.wf], by rfl⟩

set_option maxRecDepth 8192 in
/-- C3 (amended): the JSON round trip `from_json (to_json e) = e` holds for
every value of every defined `OvsEvent` variant on which `to_json` succeeds —
i.e. for all values except `flow_operation` with `op_type ∉ {0, 1}` — and
`op_type` serializes as the string `"exec"` for 0 and `"put"` for 1. -/
theorem ovsJson_round_trip :
    (∀ (e : OvsEvent) (j : Json), OvsEvent.wf e → ovsToJson e = .ok j →
       ovsFromJson j = some e) ∧
    (∀ o : OperationEvent,
       (o.op_type = 0 → ∃ fs, ovsToJson (.operation o) = .ok (.obj fs) ∧
           jGet fs "op_type" = some (.str "exec")) ∧
       (o.op_type = 1 → ∃ fs, ovsToJson (.operation o) = .ok (.obj fs) ∧
           jGet fs "op_type" = some (.str "put"))) := by
  constructor
  · intro e j hwf htj
    cases e with
    | upcall u =>
      obtain ⟨h1, h2, h3⟩ := hwf
      simp only [ovsToJson, Except.ok.injEq] at htj
      subst htj
      simp [ovsFromJson, jGet, asNatLt_coe h1, asNatLt_coe h2, asNatLt_coe h3]
    | upcallEnqueue u =>
      obtain ⟨hr1, hr2, h1, h2, h3, h4, h5⟩ := hwf
      simp only [ovsToJson, Except.ok.injEq] at htj
      subst htj
      simp [ovsFromJson, jGet, asInt32_in hr1 hr2, asNatLt_coe h1,
        asNatLt_coe h2, asNatLt_coe h3, asNatLt_coe h4, asNatLt_coe h5]
    | upcallReturn u =>
      obtain ⟨h1, h2, hr1, hr2⟩ := hwf
      simp only [ovsToJson, Except.ok.injEq] at htj
      subst htj
      simp [ovsFromJson, jGet, asInt32_in hr1 hr2, asNatLt_coe h1,
        asNatLt_coe h2]
    | recvUpcall r =>
      obtain ⟨h1, h2, h3, h4, h5, h6⟩ := hwf
      simp only [ovsToJson, Except.ok.injEq] at htj
      subst htj
      simp [ovsFromJson, jGet, asNatLt_coe h1, asNatLt_coe h2,
        asNatLt_coe h3, asNatLt_coe h4, asNatLt_coe h5, asNatLt_coe h6]
    | operation o =>
      obtain ⟨h1, h2, h3, h4⟩ := hwf
      rcases o with ⟨ot, oq, obt, obi⟩
      by_cases h0 : ot = 0
      · have hop : operationStr ot = .ok "exec" := by simp [operationStr, h0]
        simp only [ovsToJson, hop, Except.ok.injEq] at htj
        subst htj
        simp [ovsFromJson, jGet, asNatLt_coe h2, asNatLt_coe h3,
          asNatLt_coe h4, h0]
      · by_cases h1' : ot = 1
        · have hop : operationStr ot = .ok "put" := by simp [operationStr, h0, h1']
          simp only [ovsToJson, hop, Except.ok.injEq] at htj
          subst htj
          simp [ovsFromJson, jGet, asNatLt_coe h2, asNatLt_coe h3,
            asNatLt_coe h4, h1']
        · have hop : operationStr ot =
              .error ("Unknown operation type " ++ toString ot) := by
            simp [operationStr, h0, h1']
          simp only [ovsToJson, hop] at htj
          exact absurd htj (by simp)
    | action a =>
      rcases a with ⟨act, rid, mru, addr, qid⟩
      obtain ⟨hact, h1, h2, h3, hq⟩ := hwf
      simp only [ovsToJson, Except.ok.injEq] at htj
      subst htj
      have hqlem : parseOptNatLt 4294967296
          (jGet (match qid with
            | none => []
            | some q => [("queue_id", Json.num q)]) "queue_id") = some qid := by
        rcases qid with _ | q
        · rfl
        · have hq' : q < 4294967296 := hq q rfl
          simp [jGet, parseOptNatLt, asNatLt_coe hq']
      rcases act with _ | av
      · rcases qid with _ | q
        · simp [ovsFromJson, ovsActionFromFields, jGet,
            asNatLt_coe h1, asNatLt_coe h2, asNatLt_coe h3, parseOptNatLt]
        · have hq' : q < 4294967296 := hq q rfl
          simp [ovsFromJson, ovsActionFromFields, jGet, parseOptNatLt,
            asNatLt_coe h1, asNatLt_coe h2, asNatLt_coe h3, asNatLt_coe hq']
      · have hav : OvsAction.wf av := hact av rfl
        cases av with
        | output o =>
          have hp : o.port < 4294967296 := hav
          rcases qid with _ | q
          · simp [ovsFromJson, ovsActionFromFields, OvsAction.toJsonFields, jGet,
              parseOptNatLt, asNatLt_coe h1, asNatLt_coe h2,
              asNatLt_coe h3, asNatLt_coe hp]
          · have hq' : q < 4294967296 := hq q rfl
            simp [ovsFromJson, ovsActionFromFields, OvsAction.toJsonFields, jGet,
              parseOptNatLt, asNatLt_coe h1, asNatLt_coe h2,
              asNatLt_coe h3, asNatLt_coe hp, asNatLt_coe hq']
        | recirc r =>
          have hp : r.id < 4294967296 := hav
          rcases qid with _ | q
          · simp [ovsFromJson, ovsActionFromFields, OvsAction.toJsonFields, jGet,
              parseOptNatLt, asNatLt_coe h1, asNatLt_coe h2,
              asNatLt_coe h3, asNatLt_coe hp]
          · have hq' : q < 4294967296 := hq q rfl
            simp [ovsFromJson, ovsActionFromFields, OvsAction.toJsonFields, jGet,
              parseOptNatLt, asNatLt_coe h1, asNatLt_coe h2,
              asNatLt_coe h3, asNatLt_coe hp, asNatLt_coe hq']
        | drop reason =>
          have hp : reason < 4294967296 := hav
          rcases qid with _ | q
          · simp [ovsFromJson, ovsActionFromFields, OvsAction.toJsonFields, jGet,
              parseOptNatLt, asNatLt_coe h1, asNatLt_coe h2,
              asNatLt_coe h3, asNatLt_coe hp]
          · have hq' : q < 4294967296 := hq q rfl
            simp [ovsFromJson, ovsActionFromFields, OvsAction.toJsonFields, jGet,
              parseOptNatLt, asNatLt_coe h1, asNatLt_coe h2,
              asNatLt_coe h3, asNatLt_coe hp, asNatLt_coe hq']
        | ct c =>
          rcases c with ⟨flags, zone_id, nat⟩
          obtain ⟨hf, hz, hn⟩ := hav
          rcases nat with _ | n
          · rcases qid with _ | q
            · simp [ovsFromJson, ovsActionFromFields, OvsAction.toJsonFields, jGet,
                parseOptNatLt, parseOptCtNat, asNatLt_coe h1, asNatLt_coe h2,
                asNatLt_coe h3, asNatLt_coe hf, asNatLt_coe hz]
            · have hq' : q < 4294967296 := hq q rfl
              simp [ovsFromJson, ovsActionFromFields, OvsAction.toJsonFields, jGet,
                parseOptNatLt, parseOptCtNat, asNatLt_coe h1, asNatLt_coe h2,
                asNatLt_coe h3, asNatLt_coe hf, asNatLt_coe hz, asNatLt_coe hq']
          · have hnwf : OvsActionCtNat.wf n := hn n rfl
            rcases qid with _ | q
            · simp [ovsFromJson, ovsActionFromFields, OvsAction.toJsonFields, jGet,
                parseOptNatLt, asNatLt_coe h1, asNatLt_coe h2,
                asNatLt_coe h3, asNatLt_coe hf, asNatLt_coe hz,
                parseOptCtNat_some n hnwf]
            · have hq' : q < 4294967296 := hq q rfl
              simp [ovsFromJson, ovsActionFromFields, OvsAction.toJsonFields, jGet,
                parseOptNatLt, asNatLt_coe h1, asNatLt_coe h2,
                asNatLt_coe h3, asNatLt_coe hf, asNatLt_coe hz, asNatLt_coe hq',
                parseOptCtNat_some n hnwf]
        | userspace =>
          rcases qid with _ | q
          · simp [ovsFromJson, ovsActionFromFields, OvsAction.toJsonFields, jGet,
              parseOptNatLt, asNatLt_coe h1, asNatLt_coe h2, asNatLt_coe h3]
          · have hq' : q < 4294967296 := hq q rfl
            simp [ovsFromJson, ovsActionFromFields, OvsAction.toJsonFields, jGet,
              parseOptNatLt, asNatLt_coe h1, asNatLt_coe h2,
              asNatLt_coe h3, asNatLt_coe hq']
        | set =>
          rcases qid with _ | q
          · simp [ovsFromJson, ovsActionFromFields, OvsAction.toJsonFields, jGet,
              parseOptNatLt, asNatLt_coe h1, asNatLt_coe h2, asNatLt_coe h3]
          · have hq' : q < 4294967296 := hq q rfl
            simp [ovsFromJson, ovsActionFromFields, OvsAction.toJsonFields, jGet,
              parseOptNatLt, asNatLt_coe h1, asNatLt_coe h2,
              asNatLt_coe h3, asNatLt_coe hq']
        | pushVlan =>
          rcases qid with _ | q
          · simp [ovsFromJson, ovsActionFromFields, OvsAction.toJsonFields, jGet,
              parseOptNatLt, asNatLt_coe h1, asNatLt_coe h2, asNatLt_coe h3]
          · have hq' : q < 4294967296 := hq q rfl
            simp [ovsFromJson, ovsActionFromFields, OvsAction.toJsonFields, jGet,
              parseOptNatLt, asNatLt_coe h1, asNatLt_coe h2,
              asNatLt_coe h3, asNatLt_coe hq']
        | popVlan =>
          rcases qid with _ | q
          · simp [ovsFromJson, ovsActionFromFields, OvsAction.toJsonFields, jGet,
              parseOptNatLt, asNatLt_coe h1, asNatLt_coe h2, asNatLt_coe h3]
          · have hq' : q < 4294967296 := hq q rfl
            simp [ovsFromJson, ovsActionFromFields, OvsAction.toJsonFields, jGet,
              parseOptNatLt, asNatLt_coe h1, asNatLt_coe h2,
              asNatLt_coe h3, asNatLt_coe hq']
        | sample =>
          rcases qid with _ | q
          · simp [ovsFromJson, ovsActionFromFields, OvsAction.toJsonFields, jGet,
              parseOptNatLt, asNatLt_coe h1, asNatLt_coe h2, asNatLt_coe h3]
          · have hq' : q < 4294967296 := hq q rfl
            simp [ovsFromJson, ovsActionFromFields, OvsAction.toJsonFields, jGet,
              parseOptNatLt, asNatLt_coe h1, asNatLt_coe h2,
              asNatLt_coe h3, asNatLt_coe hq']
        | hash =>
          rcases qid with _ | q
          · simp [ovsFromJson, ovsActionFromFields, OvsAction.toJsonFields, jGet,
              parseOptNatLt, asNatLt_coe h1, asNatLt_coe h2, asNatLt_coe h3]
          · have hq' : q < 4294967296 := hq q rfl
            simp [ovsFromJson, ovsActionFromFields, OvsAction.toJsonFields, jGet,
              parseOptNatLt, asNatLt_coe h1, asNatLt_coe h2,
              asNatLt_coe h3, asNatLt_coe hq']
        | pushMpls =>
          rcases qid with _ | q
          · simp [ovsFromJson, ovsActionFromFields, OvsAction.toJsonFields, jGet,
              parseOptNatLt, asNatLt_coe h1, asNatLt_coe h2, asNatLt_coe h3]
          · have hq' : q < 4294967296 := hq q rfl
            simp [ovsFromJson, ovsActionFromFields, OvsAction.toJsonFields, jGet,
              parseOptNatLt, asNatLt_coe h1, asNatLt_coe h2,
              asNatLt_coe h3, asNatLt_coe hq']
        | popMpls =>
          rcases qid with _ | q
          · simp [ovsFromJson, ovsActionFromFields, OvsAction.toJsonFields, jGet,
              parseOptNatLt, asNatLt_coe h1, asNatLt_coe h2, asNatLt_coe h3]
          · have hq' : q < 4294967296 := hq q rfl
            simp [ovsFromJson, ovsActionFromFields, OvsAction.toJsonFields, jGet,
              parseOptNatLt, asNatLt_coe h1, asNatLt_coe h2,
              asNatLt_coe h3, asNatLt_coe hq']
        | setMasked =>
          rcases qid with _ | q
          · simp [ovsFromJson, ovsActionFromFields, OvsAction.toJsonFields, jGet,
              parseOptNatLt, asNatLt_coe h1, asNatLt_coe h2, asNatLt_coe h3]
          · have hq' : q < 4294967296 := hq q rfl
            simp [ovsFromJson, ovsActionFromFields, OvsAction.toJsonFields, jGet,
              parseOptNatLt, asNatLt_coe h1, asNatLt_coe h2,
              asNatLt_coe h3, asNatLt_coe hq']
        | trunc =>
          rcases qid with _ | q
          · simp [ovsFromJson, ovsActionFromFields, OvsAction.toJsonFields, jGet,
              parseOptNatLt, asNatLt_coe h1, asNatLt_coe h2, asNatLt_coe h3]
          · have hq' : q < 4294967296 := hq q rfl
            simp [ovsFromJson, ovsActionFromFields, OvsAction.toJsonFields, jGet,
              parseOptNatLt, asNatLt_coe h1, asNatLt_coe h2,
              asNatLt_coe h3, asNatLt_coe hq']
        | pushEth =>
          rcases qid with _ | q
          · simp [ovsFromJson, ovsActionFromFields, OvsAction.toJsonFields, jGet,
              parseOptNatLt, asNatLt_coe h1, asNatLt_coe h2, asNatLt_coe h3]
          · have hq' : q < 4294967296 := hq q rfl
            simp [ovsFromJson, ovsActionFromFields, OvsAction.toJsonFields, jGet,
              parseOptNatLt, asNatLt_coe h1, asNatLt_coe h2,
              asNatLt_coe h3, asNatLt_coe hq']
        | popEth =>
          rcases qid with _ | q
          · simp [ovsFromJson, ovsActionFromFields, OvsAction.toJsonFields, jGet,
              parseOptNatLt, asNatLt_coe h1, asNatLt_coe h2, asNatLt_coe h3]
          · have hq' : q < 4294967296 := hq q rfl
            simp [ovsFromJson, ovsActionFromFields, OvsAction.toJsonFields, jGet,
              parseOptNatLt, asNatLt_coe h1, asNatLt_coe h2,
              asNatLt_coe h3, asNatLt_coe hq']
        | ctClear =>
          rcases qid with _ | q
          · simp [ovsFromJson, ovsActionFromFields, OvsAction.toJsonFields, jGet,
              parseOptNatLt, asNatLt_coe h1, asNatLt_coe h2, asNatLt_coe h3]
          · have hq' : q < 4294967296 := hq q rfl
            simp [ovsFromJson, ovsActionFromFields, OvsAction.toJsonFields, jGet,
              parseOptNatLt, asNatLt_coe h1, asNatLt_coe h2,
              asNatLt_coe h3, asNatLt_coe hq']
        | pushNsh =>
          rcases qid with _ | q
          · simp [ovsFromJson, ovsActionFromFields, OvsAction.toJsonFields, jGet,
              parseOptNatLt, asNatLt_coe h1, asNatLt_coe h2, asNatLt_coe h3]
          · have hq' : q < 4294967296 := hq q rfl
            simp [ovsFromJson, ovsActionFromFields, OvsAction.toJsonFields, jGet,
              parseOptNatLt, asNatLt_coe h1, asNatLt_coe h2,
              asNatLt_coe h3, asNatLt_coe hq']
        | popNsh =>
          rcases qid with _ | q
          · simp [ovsFromJson, ovsActionFromFields, OvsAction.toJsonFields, jGet,
              parseOptNatLt, asNatLt_coe h1, asNatLt_coe h2, asNatLt_coe h3]
          · have hq' : q < 4294967296 := hq q rfl
            simp [ovsFromJson, ovsActionFromFields, OvsAction.toJsonFields, jGet,
              parseOptNatLt, asNatLt_coe h1, asNatLt_coe h2,
              asNatLt_coe h3, asNatLt_coe hq']
        | meter =>
          rcases qid with _ | q
          · simp [ovsFromJson, ovsActionFromFields, OvsAction.toJsonFields, jGet,
              parseOptNatLt, asNatLt_coe h1, asNatLt_coe h2, asNatLt_coe h3]
          · have hq' : q < 4294967296 := hq q rfl
            simp [ovsFromJson, ovsActionFromFields, OvsAction.toJsonFields, jGet,
              parseOptNatLt, asNatLt_coe h1, asNatLt_coe h2,
              asNatLt_coe h3, asNatLt_coe hq']
        | clone =>
          rcases qid with _ | q
          · simp [ovsFromJson, ovsActionFromFields, OvsAction.toJsonFields, jGet,
              parseOptNatLt, asNatLt_coe h1, asNatLt_coe h2, asNatLt_coe h3]
          · have hq' : q < 4294967296 := hq q rfl
            simp [ovsFromJson, ovsActionFromFields, OvsAction.toJsonFields, jGet,
              parseOptNatLt, asNatLt_coe h1, asNatLt_coe h2,
              asNatLt_coe h3, asNatLt_coe hq']
        | checkPktLen =>
          rcases qid with _ | q
          · simp [ovsFromJson, ovsActionFromFields, OvsAction.toJsonFields, jGet,
              parseOptNatLt, asNatLt_coe h1, asNatLt_coe h2, asNatLt_coe h3]
          · have hq' : q < 4294967296 := hq q rfl
            simp [ovsFromJson, ovsActionFromFields, OvsAction.toJsonFields, jGet,
              parseOptNatLt, asNatLt_coe h1, asNatLt_coe h2,
              asNatLt_coe h3, asNatLt_coe hq']
        | addMpls =>
          rcases qid with _ | q
          · simp [ovsFromJson, ovsActionFromFields, OvsAction.toJsonFields, jGet,
              parseOptNatLt, asNatLt_coe h1, asNatLt_coe h2, asNatLt_coe h3]
          · have hq' : q < 4294967296 := hq q rfl
            simp [ovsFromJson, ovsActionFromFields, OvsAction.toJsonFields, jGet,
              parseOptNatLt, asNatLt_coe h1, asNatLt_coe h2,
              asNatLt_coe h3, asNatLt_coe hq']
        | decTtl =>
          rcases qid with _ | q
          · simp [ovsFromJson, ovsActionFromFields, OvsAction.toJsonFields, jGet,
              parseOptNatLt, asNatLt_coe h1, asNatLt_coe h2, asNatLt_coe h3]
          · have hq' : q < 4294967296 := hq q rfl
            simp [ovsFromJson, ovsActionFromFields, OvsAction.toJsonFields, jGet,
              parseOptNatLt, asNatLt_coe h1, asNatLt_coe h2,
              asNatLt_coe h3, asNatLt_coe hq']
  · intro o
    constructor
    · intro h0
      refine ⟨[("event_type", .str "flow_operation"), ("op_type", .str "exec"),
        ("queue_id", .num o.queue_id), ("batch_ts", .num o.batch_ts),
        ("batch_idx", .num o.batch_idx)], ?_, ?_⟩
      · simp [ovsToJson, operationStr, h0]
      · simp [jGet]
    · intro h1
      refine ⟨[("event_type", .str "flow_operation"), ("op_type", .str "put"),
        ("queue_id", .num o.queue_id), ("batch_ts", .num o.batch_ts),
        ("batch_idx", .num o.batch_idx)], ?_, ?_⟩
      · simp [ovsToJson, operationStr, h1]
      · simp [jGet]

/-- C3 witness: the concrete upcall test vector round-trips, and a concrete
`flow_operation` with `op_type = 0` serializes its `op_type` as `"exec"`. -/
theorem ovsJson_round_trip_witness :
    OvsEvent.wf (.upcall ⟨1, 4195744766, 0⟩) ∧
    ovsFromJson (.obj [("event_type", .str "upcall"), ("cmd", .num 1),
        ("port", .num 4195744766), ("cpu", .num 0)]) =
      some (.upcall ⟨1, 4195744766, 0⟩) ∧
    (∃ fs, ovsToJson (.operation ⟨0, 7, 9, 2⟩) = .ok (.obj fs) ∧
        jGet fs "op_type" = some (.str "exec")) :=
  ⟨by norm_num [OvsEvent.wf, UpcallEvent.wf],
   ovsJson_round_trip.1 (.upcall ⟨1, 4195744766, 0⟩)
     (.obj [("event_type", .str "upcall"), ("cmd", .num 1),
        ("port", .num 4195744766), ("cpu", .num 0)])
     (by norm_num [OvsEvent.wf, UpcallEvent.wf]) (by rfl),
   (ovsJson_round_trip.2 ⟨0, 7, 9, 2⟩).1 rfl⟩

/-- C8 witness: a 3-instruction translation is rejected for `maxInsns = 2` and
accepted (with the bound holding) for `maxInsns = 3`. -/
theorem fromStringOpt_length_bound_witness :
    ([0, 1, 2] : List Nat).length ≤ 3 ∧
    isOkE (fromStringOpt 2 (fun _ _ => .ok [0, 1, 2]) "ip" .l2) = false :=
  ⟨fromStringOpt_length_bound.1 3 (fun _ _ => .ok [0, 1, 2]) "ip" .l2 [0, 1, 2] rfl,
   fromStringOpt_length_bound.2 2 (fun _ _ => .ok [0, 1, 2]) "ip" .l2 1 [0, 1, 2]
     rfl rfl (by simp)⟩

end PacketTracer
